import Mathlib

/-!
Shallow embedding of the calendar core of the PetHub repository
(`calendarapp/views.py`), and proofs of the specification claims about it.

Conventions of the embedding:
* Python `datetime.date` values are records of an `Int` year and `Nat`
  month/day; the Python constructor `date(y, m, d)`, which raises
  `ValueError` on invalid components, is `mkDate`, returning `none` for the
  raised exception.
* Django rows are records in a `St` state (a list of events, a fresh-id
  counter for primary keys, and a list of reminder rows).  ORM queries become
  list operations on that state; `Event.objects.create`/`save` appends a row
  with the next id.
* A Python function that can raise an exception that escapes it is embedded
  with an `Option` result, `none` standing for the raised exception.
* Field and function names follow the Python source (`repeats` stands for the
  Python field `repeat`, which is a reserved word in Lean).
-/

/-- A calendar date as in Python's `datetime.date`: year, month, day. -/
structure Date where
  year : Int
  month : Nat
  day : Nat
deriving DecidableEq, Repr

/-- Python `calendar.isleap` / the leap rule used by `datetime.date`:
divisible by 4 and not by 100, or divisible by 400. -/
def isLeap (y : Int) : Bool :=
  (y % 4 == 0 && y % 100 != 0) || (y % 400 == 0)

/-- Number of days in a month, as used by `datetime.date` validation. -/
def daysInMonth (y : Int) (m : Nat) : Nat :=
  if m = 2 then (if isLeap y then 29 else 28)
  else if m = 4 ∨ m = 6 ∨ m = 9 ∨ m = 11 then 30
  else 31

/-- Validity of date components for Python's `datetime.date` constructor:
the year within `MINYEAR = 1 .. MAXYEAR = 9999`, the month within 1..12, the
day within the month's length. -/
def dateOK (y : Int) (m d : Nat) : Prop :=
  1 ≤ y ∧ y ≤ 9999 ∧ 1 ≤ m ∧ m ≤ 12 ∧ 1 ≤ d ∧ d ≤ daysInMonth y m

instance decDateOK (y : Int) (m d : Nat) : Decidable (dateOK y m d) := by
  unfold dateOK; infer_instance

/-- Python `date(year, month, day)`: the date when the components are valid,
`none` for the raised `ValueError` otherwise. -/
def mkDate (y : Int) (m d : Nat) : Option Date :=
  if dateOK y m d then some ⟨y, m, d⟩ else none

/-- `EventService.get_safe_date` (views.py 164-171): try `date(y, m, d)`;
on `ValueError`, if the components are Feb 29 return `date(y, 2, 28)`
(itself possibly raising), otherwise re-raise.  `none` is the escaping
exception. -/
def get_safe_date (y : Int) (m d : Nat) : Option Date :=
  match mkDate y m d with
  | some dt => some dt
  | none => if m == 2 && d == 29 then mkDate y 2 28 else none

/-- The event row (`calendarapp.models.Event` as used by views.py): primary
key, owning pet's id, title, type, date, optional time of day, optional
duration, note, the yearly flag, completion flag and year, and the optional
series-head reference `original_event` (a head has `none`, a continuation
holds its head's id). -/
structure Event where
  id : Nat
  pet : Nat
  title : String
  event_type : String
  date : Date
  time : Option Nat
  duration_minutes : Option Int
  note : String
  is_yearly : Bool
  is_done : Bool
  done_year : Option Int
  original_event : Option Nat
deriving DecidableEq, Repr

/-- The reminder row (`calendarapp.models.ReminderSettings` as used by
views.py), one-to-one with an event (`event` is the event's id).
`repeats` embeds the Python field `repeat` (reserved word in Lean). -/
structure Reminder where
  event : Nat
  pet : Nat
  remind_at : Option Nat
  remind_date : Option Date
  repeats : Bool
  repeat_days : List Nat
  repeat_every : Int
deriving DecidableEq, Repr

/-- The database state: event rows, the next free event primary key, and the
reminder rows. -/
structure St where
  events : List Event
  nextId : Nat
  reminders : List Reminder
deriving DecidableEq, Repr

/-- `EventFormData` (views.py 24-55), restricted to the service layer where
the view has already checked that a date was parsed. -/
structure EventFormData where
  title : String
  event_type : String
  date : Date
  time : Option Nat
  duration : Option Int
  note : String
  is_yearly : Bool
deriving DecidableEq, Repr

/-- `ReminderFormData` (views.py 58-105).  `repeats` embeds the Python field
`repeat`. -/
structure ReminderFormData where
  remind_at : Option Nat
  remind_date : Option Date
  repeats : Bool
  repeat_days : List Nat
  repeat_every : Int
deriving DecidableEq, Repr

/-- `EventService.check_duplicate` (views.py 139-144): does an event of this
pet with this title and date exist, excluding `exclude_id` when that argument
is truthy (in Python `if exclude_id:` is false for `None` and for `0`). -/
def check_duplicate (events : List Event) (pet : Nat) (title : String)
    (event_date : Date) (exclude_id : Option Nat) : Bool :=
  events.any fun e =>
    e.pet == pet && e.title == title && e.date == event_date &&
      (match exclude_id with
       | some i => if i ≠ 0 then e.id != i else true
       | none => true)

/-- The advisory warning text of `calculate_yearly_start_year`. -/
def startYearWarning (start_year : Int) : String :=
  "Событие создано как ежегодная серия, начинающаяся с " ++ toString start_year ++
    " года, так как оригинальная дата слишком далеко в прошлом."

/-- `EventService.calculate_yearly_start_year` (views.py 146-162).  The
ambient `timezone.now().year` is passed in as `current_year`. -/
def calculate_yearly_start_year (current_year : Int) (event_date : Date) :
    Int × Option String :=
  if event_date.year ≥ current_year - 1 then (event_date.year, none)
  else (current_year - 1, some (startYearWarning (current_year - 1)))

/-- The event record built inside `EventService.create_yearly_series`
(views.py 196-207): a yearly, not-done event of the series with head
reference `orig` and primary key `i`. -/
def seriesEvent (pet : Nat) (fd : EventFormData) (d : Date) (orig : Option Nat)
    (i : Nat) : Event :=
  ⟨i, pet, fd.title, fd.event_type, d, fd.time, fd.duration, fd.note,
   true, false, none, orig⟩

/-- The loop of `EventService.create_yearly_series` (views.py 183-213).
The head is saved (appended to the state) as soon as it is built, so later
duplicate checks see it; continuations are only collected (their dates
suffice: all other fields are fixed) and persisted by the bulk create after
the loop, so the in-loop duplicate checks do not see them, exactly as in the
source.  `none` is the `ValueError` escaping from `get_safe_date`. -/
def cys_go (pet : Nat) (fd : EventFormData) :
    St → Option Event → List Date → List Int → Option (St × Option Event × List Date)
  | st, head, pending, [] => some (st, head, pending)
  | st, head, pending, y :: rest =>
    match get_safe_date y fd.date.month fd.date.day with
    | none => none
    | some sd =>
      if check_duplicate st.events pet fd.title sd none then
        cys_go pet fd st head pending rest
      else
        match head with
        | none =>
          let ev := seriesEvent pet fd sd none st.nextId
          cys_go pet fd ⟨st.events ++ [ev], st.nextId + 1, st.reminders⟩ (some ev) pending rest
        | some h => cys_go pet fd st (some h) (pending ++ [sd]) rest

/-- `Event.objects.bulk_create(created_events)` (views.py 215-216): persist
the collected continuation dates of head `h`, assigning consecutive primary
keys. -/
def bulkCreate (pet : Nat) (fd : EventFormData) (h : Nat) :
    St → List Date → St × List Event
  | st, [] => (st, [])
  | st, d :: ds =>
    let ev := seriesEvent pet fd d (some h) st.nextId
    let r := bulkCreate pet fd h ⟨st.events ++ [ev], st.nextId + 1, st.reminders⟩ ds
    (r.1, ev :: r.2)

/-- `EventService.create_yearly_series` (views.py 173-218): returns the new
state, the head (`original_event` of the series) when one was created, and
the bulk-created continuations. -/
def create_yearly_series (st : St) (pet : Nat) (fd : EventFormData)
    (years : List Int) : Option (St × Option Event × List Event) :=
  match cys_go pet fd st none [] years with
  | none => none
  | some (st1, none, _) => some (st1, none, [])
  | some (st1, some h, pending) =>
    let r := bulkCreate pet fd h.id st1 pending
    some (r.1, some h, r.2)

/-- `EventService.create_single_event` (views.py 220-234). -/
def create_single_event (st : St) (pet : Nat) (fd : EventFormData) : St × Event :=
  let ev : Event :=
    ⟨st.nextId, pet, fd.title, fd.event_type, fd.date, fd.time, fd.duration,
     fd.note, false, false, none, none⟩
  (⟨st.events ++ [ev], st.nextId + 1, st.reminders⟩, ev)

/-- `EventService.get_series_events` (views.py 236-243): the head of the
entry's series (the entry itself when its `original_event` is null, the
referenced row otherwise) followed by all rows whose `original_event` points
at that head. -/
def get_series_events (st : St) (e : Event) : List Event :=
  match e.original_event with
  | some hid =>
    ((st.events.find? (fun x => x.id == hid)).toList) ++
      st.events.filter (fun x => x.original_event == some hid)
  | none => [e] ++ st.events.filter (fun x => x.original_event == some e.id)

/-- The field assignments of the `update_events` loop (views.py 269-275):
the in-memory event with title, type, date, time, duration, note and yearly
flag taken from the form. -/
def editFields (ev : Event) (fd : EventFormData) (nd : Date) : Event :=
  { ev with title := fd.title, event_type := fd.event_type, date := nd,
            time := fd.time, duration_minutes := fd.duration, note := fd.note,
            is_yearly := fd.is_yearly }

/-- `Event.objects.bulk_update(updated, [...])` writes exactly the seven
listed fields of `u` onto the row. -/
def applyUpdate (row u : Event) : Event :=
  { row with title := u.title, event_type := u.event_type, date := u.date,
             time := u.time, duration_minutes := u.duration_minutes,
             note := u.note, is_yearly := u.is_yearly }

/-- The loop of `EventService.update_events` (views.py 251-276): for each
event, the new date is the form's month/day on the event's own year when
`update_date` (the raw `date(...)` constructor — `none` is its escaping
`ValueError`), else the event's date; skip if the (title, date) pair was
already claimed in this batch or a persisted duplicate (excluding the event
itself) exists; otherwise claim the pair and collect the edited event. -/
def upd_go (dbe : List Event) (fd : EventFormData) (update_date : Bool) :
    List (String × Date) → List Event → List Event → Option (List Event)
  | _, updated, [] => some updated
  | used, updated, ev :: rest =>
    match (if update_date then mkDate ev.date.year fd.date.month fd.date.day
           else some ev.date) with
    | none => none
    | some nd =>
      if (fd.title, nd) ∈ used then upd_go dbe fd update_date used updated rest
      else if check_duplicate dbe ev.pet fd.title nd (some ev.id) then
        upd_go dbe fd update_date used updated rest
      else
        upd_go dbe fd update_date ((fd.title, nd) :: used)
          (updated ++ [editFields ev fd nd]) rest

/-- `EventService.update_events` (views.py 245-284): run the loop against the
persisted rows, then bulk-update the accepted events' seven listed fields
onto the rows with matching primary keys. -/
def update_events (st : St) (events : List Event) (fd : EventFormData)
    (update_date : Bool) : Option (St × List Event) :=
  match upd_go st.events fd update_date [] [] events with
  | none => none
  | some updated =>
    some (⟨st.events.map (fun row =>
             match updated.find? (fun u => u.id == row.id) with
             | some u => applyUpdate row u
             | none => row),
           st.nextId, st.reminders⟩, updated)

/-- Replace the reminder row bound to `r.event`, or insert `r` if none is
bound yet (the store half of `get_or_create` plus `save`). -/
def upsertReminder (rs : List Reminder) (r : Reminder) : List Reminder :=
  if rs.any (fun x => x.event == r.event) then
    rs.map (fun x => if x.event == r.event then r else x)
  else rs ++ [r]

/-- `ReminderService.save_reminder` (views.py 289-321): no-op returning
`none`-config when the form has no `remind_at`; otherwise get-or-create the
config bound to the event, overwrite `remind_at`, `repeat`, `repeat_days`,
`repeat_every`; store `remind_date` only when one was supplied and `repeat`
is off, rebased with the raw `date(event.date.year, month, day)` constructor
when `adjust_date_to_event_year` — whose `ValueError` escapes (outer `none`);
in every other case clear `remind_date`.  `storedReminder` is the record the
`save` call persists: the got-or-created row with every field overwritten. -/
def storedReminder (st : St) (e : Event) (a : Nat) (rd : ReminderFormData)
    (rdate : Option Date) : Reminder :=
  let base := (st.reminders.find? (fun x => x.event == e.id)).getD
    ⟨e.id, e.pet, none, none, false, [], 1⟩
  ⟨base.event, base.pet, some a, rdate, rd.repeats, rd.repeat_days,
   rd.repeat_every⟩

/-- `ReminderService.save_reminder` (views.py 289-321); see `storedReminder`
for the record written. -/
def save_reminder (st : St) (e : Event) (rd : ReminderFormData)
    (adjust_date_to_event_year : Bool) : Option (St × Option Reminder) :=
  match rd.remind_at with
  | none => some (st, none)
  | some at_val =>
    let rdate? : Option (Option Date) :=
      match rd.remind_date, rd.repeats with
      | some rdt, false =>
        if adjust_date_to_event_year then
          (mkDate e.date.year rdt.month rdt.day).map some
        else some (some rdt)
      | _, _ => some none
    match rdate? with
    | none => none
    | some rdate =>
      let r : Reminder := storedReminder st e at_val rd rdate
      some (⟨st.events, st.nextId, upsertReminder st.reminders r⟩, some r)

/-- `ReminderService.save_reminders_for_events` (views.py 323-337): apply
`save_reminder` with `adjust_date_to_event_year = true` to each event,
collecting the configs actually produced. -/
def save_reminders_for_events (st : St) (events : List Event)
    (rd : ReminderFormData) : Option (St × List Reminder) :=
  match events with
  | [] => some (st, [])
  | e :: rest =>
    match save_reminder st e rd true with
    | none => none
    | some (st1, r?) =>
      match save_reminders_for_events st1 rest rd with
      | none => none
      | some (st2, rs) => some (st2, r?.toList ++ rs)

/-- Zero-pad a natural number to at least `w` digits, as Python's date
formatting does. -/
def padNum (w : Nat) (n : Nat) : String :=
  let s := toString n
  (String.mk (List.replicate (w - s.length) '0')) ++ s

/-- Python `str(date)`: ISO `YYYY-MM-DD` (years of the valid range are
non-negative). -/
def dateStr (d : Date) : String :=
  padNum 4 d.year.toNat ++ "-" ++ padNum 2 d.month ++ "-" ++ padNum 2 d.day

/-- The error message of the pre-check duplicate in `_create_yearly_event_v2`. -/
def dupMsg (d : Date) : String :=
  "Событие с таким названием и датой (" ++ dateStr d ++ ") уже существует."

/-- The error message returned when the series loop produced no head. -/
def noSeriesMsg : String := "Не удалось создать ежегодную серию событий."

/-- The session error set by `delete_event` for a protected series head. -/
def protectedMsg (title : String) : String :=
  "Нельзя удалить только первое событие в ежегодной серии '" ++ title ++
    "'. Удалите всю серию при необходимости."

/-- `delete_event` (views.py 589-632), for an authorized POST request; the
HTTP shell (login, ownership, redirect) is outside the core.  `none` is the
404 of a missing event id.  Result: the new state and the session error
message, if one was set.  A head of a yearly series with live continuations
is protected unless `delete_all`; with `delete_all` on a yearly event the
whole set of this pet's yearly events carrying the same title is deleted
(views.py 621); otherwise the single row is deleted.

Modelled from the spec: `calendarapp/models.py` is not among the sources, so
the `on_delete` behaviour of the `original_event` foreign key is taken from
the spec's §5 invariant that continuations are never left orphaned: every
delete — the single-row delete and the queryset delete of the `delete_all`
branch alike — also removes the rows whose `original_event` references a
deleted row (cascade).  One level of cascade suffices because the data model
(spec §3, §9) is a one-level head/continuation tree: continuations are never
themselves referenced. -/
def delete_event (st : St) (event_id : Nat) (delete_all : Bool) :
    Option (St × Option String) :=
  match st.events.find? (fun e => e.id == event_id) with
  | none => none
  | some event =>
    let is_series_original :=
      event.is_yearly && st.events.any (fun x => x.original_event == some event.id)
        && event.original_event == none
    if is_series_original && !delete_all then
      some (st, some (protectedMsg event.title))
    else if delete_all && event.is_yearly then
      some (⟨st.events.filter (fun x =>
               !((x.pet == event.pet && x.title == event.title && x.is_yearly)
                 || st.events.any (fun h0 =>
                      (h0.pet == event.pet && h0.title == event.title &&
                        h0.is_yearly) && x.original_event == some h0.id))),
             st.nextId, st.reminders⟩, none)
    else
      some (⟨st.events.filter (fun x =>
               !(x.id == event.id || x.original_event == some event.id)),
             st.nextId, st.reminders⟩, none)

/-- One iteration of the `create_next_year_events` loop (views.py 647-665):
for a source event, build the safe date in `target_year`; if that raises the
job dies (`none`); create the continuation (head reference: the source's head,
or the source itself) unless a duplicate exists. -/
def rolloverEvent (st : St) (e : Event) (nd : Date) : Event :=
  ⟨st.nextId, e.pet, e.title, e.event_type, nd, e.time, e.duration_minutes,
   e.note, true, false, none, some ((e.original_event).getD e.id)⟩

def rollover_step (target_year : Int) (st : St) (e : Event) : Option (St × Bool) :=
  match get_safe_date target_year e.date.month e.date.day with
  | none => none
  | some nd =>
    if check_duplicate st.events e.pet e.title nd none then some (st, false)
    else
      some (⟨st.events ++ [rolloverEvent st e nd], st.nextId + 1,
             st.reminders⟩, true)

/-- The fold of the rollover loop over the scanned candidates. -/
def rollover_go (target_year : Int) : St → Nat → List Event → Option (St × Nat)
  | st, cnt, [] => some (st, cnt)
  | st, cnt, e :: rest =>
    match rollover_step target_year st e with
    | none => none
    | some (st1, created) =>
      rollover_go target_year st1 (if created then cnt + 1 else cnt) rest

/-- `create_next_year_events` (views.py 635-668), the rollover job: scan the
yearly events dated in `current_year - 1` and create for each a continuation
in `current_year + 2` unless the (title, date) duplicate check rejects it;
returns the count created.  The ambient `timezone.now().year` is the
`current_year` argument. -/
def create_next_year_events (current_year : Int) (st : St) : Option (St × Nat) :=
  rollover_go (current_year + 2) st 0
    (st.events.filter (fun e => e.is_yearly && e.date.year == current_year - 1))

/-- `_create_yearly_event_v2` (views.py 350-375): resolve the start year,
pre-check the start date for a duplicate (returning the duplicate error
message), create the series over the three-year window, fail with
`noSeriesMsg` when no head was produced, otherwise attach the reminders to
all created events and return them.  `none` is an escaping exception
(rolled back by the caller's transaction). -/
def create_yearly_event_v2 (current_year : Int) (st : St) (pet : Nat)
    (ed : EventFormData) (rd : ReminderFormData) :
    Option (St × Sum String (List Event)) :=
  let start_year := (calculate_yearly_start_year current_year ed.date).1
  match get_safe_date start_year ed.date.month ed.date.day with
  | none => none
  | some start_date =>
    if check_duplicate st.events pet ed.title start_date none then
      some (st, Sum.inl (dupMsg start_date))
    else
      match create_yearly_series st pet ed
          [start_year, start_year + 1, start_year + 2] with
      | none => none
      | some (st1, none, _) => some (st1, Sum.inl noSeriesMsg)
      | some (st1, some h, created) =>
        match save_reminders_for_events st1 (h :: created) rd with
        | none => none
        | some (st2, _) => some (st2, Sum.inr (h :: created))

lemma dateOK_2_28 {y : Int} (hy1 : 1 ≤ y) (hy2 : y ≤ 9999) : dateOK y 2 28 := by
  refine ⟨hy1, hy2, by norm_num, by norm_num, by norm_num, ?_⟩
  simp only [daysInMonth, if_pos rfl]
  cases hl : isLeap y <;> simp [hl]

lemma not_dateOK_2_29_of_not_leap {y : Int} (hl : isLeap y = false) :
    ¬ dateOK y 2 29 := by
  rintro ⟨_, _, _, _, _, h6⟩
  simp only [daysInMonth, if_pos rfl, hl] at h6
  norm_num at h6

lemma dateOK_2_29_of_leap {y : Int} (hy1 : 1 ≤ y) (hy2 : y ≤ 9999)
    (hl : isLeap y = true) : dateOK y 2 29 := by
  refine ⟨hy1, hy2, by norm_num, by norm_num, by norm_num, ?_⟩
  simp only [daysInMonth, if_pos rfl, hl]
  norm_num

lemma mkDate_nonleap_feb29 {y : Int} (hl : isLeap y = false) :
    mkDate y 2 29 = none := by
  unfold mkDate
  rw [if_neg (not_dateOK_2_29_of_not_leap hl)]

lemma get_safe_date_feb29_corrected {y : Int} (hy1 : 1 ≤ y) (hy2 : y ≤ 9999)
    (h : ¬ dateOK y 2 29) : get_safe_date y 2 29 = some ⟨y, 2, 28⟩ := by
  unfold get_safe_date mkDate
  rw [if_neg h]
  simp only [Nat.reduceBEq, Bool.and_self, if_pos]
  rw [if_pos (dateOK_2_28 hy1 hy2)]

lemma get_safe_date_nonleap_feb29 {y : Int} (hy1 : 1 ≤ y) (hy2 : y ≤ 9999)
    (hl : isLeap y = false) : get_safe_date y 2 29 = some ⟨y, 2, 28⟩ :=
  get_safe_date_feb29_corrected hy1 hy2 (not_dateOK_2_29_of_not_leap hl)

/-- C1: `get_safe_date` returns the calendar date (y,m,d) when it is valid;
when the only invalidity is Feb 29 on a non-leap year it returns (y,2,28);
any other invalid combination fails (raises `ValueError` — `none`); in
particular `get_safe_date y 2 29 = (y,2,28)` for non-leap `y` and
`(y,2,29)` for leap `y`, for every representable year `1 ≤ y ≤ 9999`. -/
theorem C1_get_safe_date (y : Int) (m d : Nat) (hy1 : 1 ≤ y) (hy2 : y ≤ 9999) :
    (dateOK y m d → get_safe_date y m d = some ⟨y, m, d⟩) ∧
    (¬ dateOK y m d → m = 2 → d = 29 → get_safe_date y m d = some ⟨y, 2, 28⟩) ∧
    (¬ dateOK y m d → ¬(m = 2 ∧ d = 29) → get_safe_date y m d = none) ∧
    (isLeap y = false → get_safe_date y 2 29 = some ⟨y, 2, 28⟩) ∧
    (isLeap y = true → get_safe_date y 2 29 = some ⟨y, 2, 29⟩) := by
  have feb29 := get_safe_date_feb29_corrected hy1 hy2
  refine ⟨?_, ?_, ?_, ?_, ?_⟩
  · intro h
    unfold get_safe_date mkDate
    rw [if_pos h]
  · intro h hm hd
    subst hm; subst hd
    exact feb29 h
  · intro h hnot
    unfold get_safe_date mkDate
    rw [if_neg h]
    have hcond : (m == 2 && d == 29) = false := by
      rcases eq_or_ne m 2 with hm | hm
      · rcases eq_or_ne d 29 with hd | hd
        · exact absurd ⟨hm, hd⟩ hnot
        · simp [hm, hd]
      · simp [hm]
    rw [hcond]
    simp
  · intro hl
    exact feb29 (not_dateOK_2_29_of_not_leap hl)
  · intro hl
    unfold get_safe_date mkDate
    rw [if_pos (dateOK_2_29_of_leap hy1 hy2 hl)]

/-- Witness for C1 at the spec's test years: 2025/2100 non-leap corrected to
Feb 28, 2024/2000 leap kept, and an unrelated invalid combination raising. -/
theorem C1_get_safe_date_witness :
    get_safe_date 2025 2 29 = some ⟨2025, 2, 28⟩ ∧
    get_safe_date 2100 2 29 = some ⟨2100, 2, 28⟩ ∧
    get_safe_date 2024 2 29 = some ⟨2024, 2, 29⟩ ∧
    get_safe_date 2000 2 29 = some ⟨2000, 2, 29⟩ ∧
    get_safe_date 2026 4 31 = none :=
  ⟨(C1_get_safe_date 2025 2 29 (by decide) (by decide)).2.2.2.1 (by decide),
   (C1_get_safe_date 2100 2 29 (by decide) (by decide)).2.2.2.1 (by decide),
   (C1_get_safe_date 2024 2 29 (by decide) (by decide)).2.2.2.2 (by decide),
   (C1_get_safe_date 2000 2 29 (by decide) (by decide)).2.2.2.2 (by decide),
   (C1_get_safe_date 2026 4 31 (by decide) (by decide)).2.2.1 (by decide)
     (by decide)⟩

/-- C9: `calculate_yearly_start_year` keeps the requested year with no
warning whenever it is at least `current_year - 1`, and otherwise rebases to
`current_year - 1` with the advisory warning; in all cases the resulting
start year is at least `current_year - 1` or equal to the requested year,
so a new series never anchors more than one year behind the present. -/
theorem C9_calculate_yearly_start_year (cy : Int) (d : Date) :
    (d.year ≥ cy - 1 → calculate_yearly_start_year cy d = (d.year, none)) ∧
    (d.year < cy - 1 →
      calculate_yearly_start_year cy d =
        (cy - 1, some (startYearWarning (cy - 1)))) ∧
    (calculate_yearly_start_year cy d).1 ≥ cy - 1 := by
  unfold calculate_yearly_start_year
  refine ⟨?_, ?_, ?_⟩
  · intro h; rw [if_pos h]
  · intro h; rw [if_neg (by omega)]
  · split <;> omega

/-- Witness for C9 at the spec's test triple (currentYear 2026; requested
2020, 2026 and 2030). -/
theorem C9_calculate_yearly_start_year_witness :
    calculate_yearly_start_year 2026 ⟨2020, 5, 10⟩ =
      (2025, some (startYearWarning 2025)) ∧
    calculate_yearly_start_year 2026 ⟨2026, 5, 10⟩ = (2026, none) ∧
    calculate_yearly_start_year 2026 ⟨2030, 5, 10⟩ = (2030, none) :=
  ⟨(C9_calculate_yearly_start_year 2026 ⟨2020, 5, 10⟩).2.1 (by decide),
   (C9_calculate_yearly_start_year 2026 ⟨2026, 5, 10⟩).1 (by decide),
   (C9_calculate_yearly_start_year 2026 ⟨2030, 5, 10⟩).1 (by decide)⟩

lemma mem_upsertReminder {rs : List Reminder} {r x : Reminder}
    (hx : x ∈ upsertReminder rs r) : x ∈ rs ∨ x = r := by
  unfold upsertReminder at hx
  split at hx
  · rcases List.mem_map.1 hx with ⟨y, hy, hxy⟩
    by_cases hc : (y.event == r.event) = true
    · right; rw [← hxy]; simp [hc]
    · left; rw [← hxy]; simp [hc]; exact hy
  · rcases List.mem_append.1 hx with h | h
    · left; exact h
    · right; simpa using h

lemma self_mem_upsertReminder {rs : List Reminder} {r : Reminder} :
    r ∈ upsertReminder rs r := by
  unfold upsertReminder
  split
  · rename_i hany
    rcases List.any_eq_true.1 hany with ⟨y, hy, hye⟩
    exact List.mem_map.2 ⟨y, hy, by simp [hye]⟩
  · simp

lemma storedReminder_event (st : St) (e : Event) (a : Nat)
    (rd : ReminderFormData) (rdate : Option Date) :
    (storedReminder st e a rd rdate).event = e.id := by
  unfold storedReminder
  rcases hfind : st.reminders.find? (fun x => x.event == e.id) with _ | y
  · simp [hfind]
  · simp only [hfind, Option.getD_some]
    simpa using List.find?_some hfind

/-- C7: the reminder mutual-exclusion invariant (`remind_date` non-null only
when `repeat = false`) is preserved by every `save_reminder` call, and a call
with `repeat = true` always stores `remind_date = none`, overriding any
supplied value. -/
theorem C7_save_reminder_invariant (st : St) (e : Event)
    (rd : ReminderFormData) (adj : Bool) (st' : St) (r? : Option Reminder)
    (h : save_reminder st e rd adj = some (st', r?)) :
    ((∀ rem ∈ st.reminders, rem.remind_date ≠ none → rem.repeats = false) →
      ∀ rem ∈ st'.reminders, rem.remind_date ≠ none → rem.repeats = false) ∧
    (∀ r, r? = some r → r.remind_date ≠ none → r.repeats = false) ∧
    (rd.repeats = true → ∀ r, r? = some r →
      r.remind_date = none ∧ r ∈ st'.reminders ∧ r.event = e.id) := by
  unfold save_reminder at h
  rcases hat : rd.remind_at with _ | a <;> rw [hat] at h
  · simp only [Option.some.injEq, Prod.mk.injEq] at h
    obtain ⟨h1, h2⟩ := h
    subst h1
    refine ⟨fun hi => hi, ?_, ?_⟩
    · intro r hr; rw [← h2] at hr; cases hr
    · intro _ r hr; rw [← h2] at hr; cases hr
  · have main : ∀ (rdate : Option Date),
        (rdate ≠ none → rd.repeats = false) →
        (rd.repeats = true → rdate = none) →
        st' = ⟨st.events, st.nextId,
               upsertReminder st.reminders (storedReminder st e a rd rdate)⟩ →
        r? = some (storedReminder st e a rd rdate) →
        ((∀ rem ∈ st.reminders, rem.remind_date ≠ none → rem.repeats = false) →
          ∀ rem ∈ st'.reminders, rem.remind_date ≠ none → rem.repeats = false) ∧
        (∀ r, r? = some r → r.remind_date ≠ none → r.repeats = false) ∧
        (rd.repeats = true → ∀ r, r? = some r →
          r.remind_date = none ∧ r ∈ st'.reminders ∧ r.event = e.id) := by
      intro rdate hinv hrep hst hr
      refine ⟨?_, ?_, ?_⟩
      · intro hpre rem hmem hdate
        rw [hst] at hmem
        rcases mem_upsertReminder hmem with hold | hnew
        · exact hpre rem hold hdate
        · rw [hnew] at hdate ⊢
          exact hinv hdate
      · intro r hrr
        rw [hr] at hrr
        injection hrr with hrr
        rw [← hrr]
        exact fun hd => hinv hd
      · intro hrt r hrr
        rw [hr] at hrr
        injection hrr with hrr
        subst hrr
        refine ⟨hrep hrt, ?_, storedReminder_event st e a rd rdate⟩
        rw [hst]
        exact self_mem_upsertReminder
    rcases hrd : rd.remind_date with _ | rdt <;> rw [hrd] at h <;>
      rcases Bool.dichotomy rd.repeats with hrp | hrp <;>
        rw [hrp] at h
    · simp only [Option.some.injEq, Prod.mk.injEq] at h
      exact main none (by simp) (fun _ => rfl) h.1.symm h.2.symm
    · simp only [Option.some.injEq, Prod.mk.injEq] at h
      exact main none (by simp) (fun _ => rfl) h.1.symm h.2.symm
    · by_cases hadj : adj = true
      · rw [hadj] at h
        simp only [eq_self_iff_true, if_true] at h
        rcases hmk : mkDate e.date.year rdt.month rdt.day with _ | dd <;>
          rw [hmk] at h
        · exact Option.noConfusion h
        · simp only [Option.map_some', Option.some.injEq, Prod.mk.injEq] at h
          exact main (some dd) (fun _ => hrp)
            (fun hc => by rw [hrp] at hc; cases hc) h.1.symm h.2.symm
      · have hadjf : adj = false := by
          cases adj
          · rfl
          · exact absurd rfl hadj
        rw [hadjf] at h
        simp only [Bool.false_eq_true, if_false, Option.some.injEq,
          Prod.mk.injEq] at h
        exact main (some rdt) (fun _ => hrp)
          (fun hc => by rw [hrp] at hc; cases hc) h.1.symm h.2.symm
    · simp only [Option.some.injEq, Prod.mk.injEq] at h
      exact main none (by simp) (fun _ => rfl) h.1.symm h.2.symm

/-- Witness for C7: a concrete `save_reminder` call with `repeat = true` and
a supplied `remind_date` stores a config bound to the event whose
`remind_date` is `none`, overriding the supplied value. -/
theorem C7_save_reminder_invariant_witness :
    (⟨1, 1, some 600, none, true, [1, 2], 1⟩ : Reminder).remind_date = none ∧
    (⟨1, 1, some 600, none, true, [1, 2], 1⟩ : Reminder) ∈ (St.mk
        [⟨1, 1, "Прививка", "vet", ⟨2025, 3, 15⟩, none, none, "", true, false,
          none, none⟩] 2
        [⟨1, 1, some 600, none, true, [1, 2], 1⟩]).reminders ∧
    (⟨1, 1, some 600, none, true, [1, 2], 1⟩ : Reminder).event =
      (⟨1, 1, "Прививка", "vet", ⟨2025, 3, 15⟩, none, none, "", true, false,
        none, none⟩ : Event).id :=
  (C7_save_reminder_invariant
      ⟨[⟨1, 1, "Прививка", "vet", ⟨2025, 3, 15⟩, none, none, "", true, false,
         none, none⟩], 2, []⟩
      ⟨1, 1, "Прививка", "vet", ⟨2025, 3, 15⟩, none, none, "", true, false,
        none, none⟩
      ⟨some 600, some ⟨2025, 3, 10⟩, true, [1, 2], 1⟩ true
      ⟨[⟨1, 1, "Прививка", "vet", ⟨2025, 3, 15⟩, none, none, "", true, false,
         none, none⟩], 2, [⟨1, 1, some 600, none, true, [1, 2], 1⟩]⟩
      (some ⟨1, 1, some 600, none, true, [1, 2], 1⟩) (by decide)).2.2 rfl
    ⟨1, 1, some 600, none, true, [1, 2], 1⟩ rfl

/-- C2 as stated is false: a Feb-29 mismatch is not corrected everywhere.
Rebasing a reminder date of Feb 29 (leap source year 2024) onto an entry's
non-leap year 2025 raises (`none`), and a series-wide edit with
`update_date` of a form dated Feb 29 onto an entry whose own year 2025 is
non-leap raises (`none`) — both surface to the caller as errors instead of
being corrected to Feb 28. -/
theorem C2_leap_policy_counterexample :
    save_reminder
        ⟨[⟨1, 1, "Прививка", "vet", ⟨2025, 3, 15⟩, none, none, "", true,
           false, none, none⟩], 2, []⟩
        ⟨1, 1, "Прививка", "vet", ⟨2025, 3, 15⟩, none, none, "", true, false,
          none, none⟩
        ⟨some 600, some ⟨2024, 2, 29⟩, false, [], 1⟩ true = none ∧
    update_events
        ⟨[⟨1, 1, "Прививка", "vet", ⟨2025, 3, 15⟩, none, none, "", true,
           false, none, none⟩], 2, []⟩
        [⟨1, 1, "Прививка", "vet", ⟨2025, 3, 15⟩, none, none, "", true, false,
          none, none⟩]
        ⟨"Прививка", "vet", ⟨2024, 2, 29⟩, none, none, "", true⟩ true =
      none := by
  constructor <;> rfl

/-- C2 amended: only the operations that go through `get_safe_date` — series
creation and rollover continuation creation — correct a
Feb-29-on-non-leap-year mismatch locally to Feb 28; series-wide edit with
`update_date` and reminder-date rebasing construct the raw date and fail
with an escaping error (`none`) on such a mismatch. -/
theorem C2_leap_policy_amended (y : Int) (hy1 : 1 ≤ y) (hy2 : y ≤ 9999)
    (hl : isLeap y = false) :
    (∀ (pet : Nat) (fd : EventFormData), fd.date.month = 2 → fd.date.day = 29 →
      create_yearly_series ⟨[], 1, []⟩ pet fd [y] =
        some (⟨[seriesEvent pet fd ⟨y, 2, 28⟩ none 1], 2, []⟩,
              some (seriesEvent pet fd ⟨y, 2, 28⟩ none 1), [])) ∧
    (∀ (e : Event), e.is_yearly = true → e.date = ⟨y - 3, 2, 29⟩ →
      create_next_year_events (y - 2) ⟨[e], 2, []⟩ =
        some (⟨[e, ⟨2, e.pet, e.title, e.event_type, ⟨y, 2, 28⟩, e.time,
                   e.duration_minutes, e.note, true, false, none,
                   some ((e.original_event).getD e.id)⟩], 3, []⟩, 1)) ∧
    (∀ (st : St) (e : Event) (es : List Event) (fd : EventFormData),
      e.date.year = y → fd.date.month = 2 → fd.date.day = 29 →
      update_events st (e :: es) fd true = none) ∧
    (∀ (st : St) (e : Event) (rd : ReminderFormData) (a : Nat) (rdt : Date),
      e.date.year = y → rd.remind_at = some a → rd.remind_date = some rdt →
      rdt.month = 2 → rdt.day = 29 → rd.repeats = false →
      save_reminder st e rd true = none) := by
  refine ⟨?_, ?_, ?_, ?_⟩
  · intro pet fd hm hd
    unfold create_yearly_series cys_go
    rw [hm, hd, get_safe_date_nonleap_feb29 hy1 hy2 hl]
    simp [check_duplicate, cys_go, bulkCreate]
  · intro e hyearly he
    unfold create_next_year_events
    have h1 : y - 2 - 1 = y - 3 := by ring
    have h2 : y - 2 + 2 = y := by ring
    simp only [List.filter, he, hyearly, h1, Bool.and_true, Bool.true_and]
    rw [show ((⟨y - 3, 2, 29⟩ : Date).year == y - 3) = true by simp]
    unfold rollover_go rollover_step
    rw [h2, he]
    simp only [get_safe_date_nonleap_feb29 hy1 hy2 hl]
    have hdup : check_duplicate [e] e.pet e.title ⟨y, 2, 28⟩ none = false := by
      simp [check_duplicate, he]
    rw [hdup]
    simp [rollover_go, rolloverEvent, he]
  · intro st e es fd hey hm hd
    unfold update_events upd_go
    rw [hey, hm, hd]
    simp only [eq_self_iff_true, if_true, mkDate_nonleap_feb29 hl]
  · intro st e rd a rdt hey hat hrdd hm hd hrp
    unfold save_reminder
    rw [hat, hrdd, hrp]
    dsimp only
    rw [hey, hm, hd]
    simp only [eq_self_iff_true, if_true, mkDate_nonleap_feb29 hl,
      Option.map_none']

/-- Witness for the amended C2 at the non-leap year 2025: the creation path
corrects Feb 29 → Feb 28, the edit path fails. -/
theorem C2_leap_policy_amended_witness :
    create_yearly_series ⟨[], 1, []⟩ 7
        ⟨"Стрижка", "groom", ⟨2024, 2, 29⟩, none, none, "", true⟩ [2025] =
      some (⟨[seriesEvent 7 ⟨"Стрижка", "groom", ⟨2024, 2, 29⟩, none, none,
                "", true⟩ ⟨2025, 2, 28⟩ none 1], 2, []⟩,
            some (seriesEvent 7 ⟨"Стрижка", "groom", ⟨2024, 2, 29⟩, none,
                none, "", true⟩ ⟨2025, 2, 28⟩ none 1), []) ∧
    update_events ⟨[], 1, []⟩
        [⟨1, 7, "Стрижка", "groom", ⟨2025, 6, 1⟩, none, none, "", true, false,
          none, none⟩]
        ⟨"Стрижка", "groom", ⟨2024, 2, 29⟩, none, none, "", true⟩ true =
      none :=
  ⟨(C2_leap_policy_amended 2025 (by decide) (by decide) (by decide)).1 7
      ⟨"Стрижка", "groom", ⟨2024, 2, 29⟩, none, none, "", true⟩ rfl rfl,
   (C2_leap_policy_amended 2025 (by decide) (by decide) (by decide)).2.2.1
      ⟨[], 1, []⟩
      ⟨1, 7, "Стрижка", "groom", ⟨2025, 6, 1⟩, none, none, "", true, false,
        none, none⟩ []
      ⟨"Стрижка", "groom", ⟨2024, 2, 29⟩, none, none, "", true⟩ rfl rfl rfl⟩

/-- C4 as stated is false: the protection guard additionally requires the
head to be yearly-flagged.  A head (null `original_event`) whose yearly flag
is off (reachable by a series-wide edit that clears the flag) but which
still has a continuation is deleted by `delete_event` with
`delete_all = false`: rows are removed and no `SeriesProtectedError` is
raised. -/
theorem C4_delete_protected_counterexample :
    delete_event
        ⟨[⟨1, 1, "Осмотр", "vet", ⟨2025, 3, 15⟩, none, none, "", false, false,
           none, none⟩,
          ⟨2, 1, "Осмотр", "vet", ⟨2026, 3, 15⟩, none, none, "", true, false,
           none, some 1⟩], 3, []⟩
        1 false =
      some (⟨[], 3, []⟩, none) := by
  rfl

/-- C4 amended: for every yearly-flagged series head with at least one
existing continuation, `delete_event` with `delete_all = false` sets the
protection error and leaves the state entirely unchanged. -/
theorem C4_delete_protected (st : St) (eid : Nat) (ev : Event)
    (hfind : st.events.find? (fun e => e.id == eid) = some ev)
    (hyearly : ev.is_yearly = true)
    (hhead : ev.original_event = none)
    (hcont : st.events.any (fun x => x.original_event == some ev.id) = true) :
    delete_event st eid false = some (st, some (protectedMsg ev.title)) := by
  unfold delete_event
  rw [hfind]
  simp [hyearly, hcont, hhead]

/-- Witness for the amended C4: a yearly head with two continuations is
protected and the three-row state is returned untouched. -/
theorem C4_delete_protected_witness :
    delete_event
        ⟨[⟨1, 1, "Осмотр", "vet", ⟨2025, 3, 15⟩, none, none, "", true, false,
           none, none⟩,
          ⟨2, 1, "Осмотр", "vet", ⟨2026, 3, 15⟩, none, none, "", true, false,
           none, some 1⟩,
          ⟨3, 1, "Осмотр", "vet", ⟨2027, 3, 15⟩, none, none, "", true, false,
           none, some 1⟩], 4, []⟩
        1 false =
      some (⟨[⟨1, 1, "Осмотр", "vet", ⟨2025, 3, 15⟩, none, none, "", true,
               false, none, none⟩,
              ⟨2, 1, "Осмотр", "vet", ⟨2026, 3, 15⟩, none, none, "", true,
               false, none, some 1⟩,
              ⟨3, 1, "Осмотр", "vet", ⟨2027, 3, 15⟩, none, none, "", true,
               false, none, some 1⟩], 4, []⟩,
            some (protectedMsg "Осмотр")) :=
  C4_delete_protected _ 1
    ⟨1, 1, "Осмотр", "vet", ⟨2025, 3, 15⟩, none, none, "", true, false, none,
      none⟩
    (by decide) (by decide) (by decide) (by decide)

/-- C5 as stated is false: `delete_event` with `delete_all = true` deletes by
(pet, title, yearly flag), not by series linkage.  An independent yearly
entry of the same pet carrying the same title but belonging to no series is
removed although it is outside the resolved series of the target head. -/
theorem C5_delete_series_counterexample :
    delete_event
        ⟨[⟨1, 1, "Вакцина", "vet", ⟨2025, 3, 1⟩, none, none, "", true, false,
           none, none⟩,
          ⟨2, 1, "Вакцина", "vet", ⟨2026, 3, 1⟩, none, none, "", true, false,
           none, some 1⟩,
          ⟨3, 1, "Вакцина", "vet", ⟨2025, 6, 1⟩, none, none, "", true, false,
           none, none⟩], 4, []⟩
        1 true =
      some (⟨[], 4, []⟩, none) ∧
    ¬(⟨3, 1, "Вакцина", "vet", ⟨2025, 6, 1⟩, none, none, "", true, false,
        none, none⟩ ∈
      get_series_events
        ⟨[⟨1, 1, "Вакцина", "vet", ⟨2025, 3, 1⟩, none, none, "", true, false,
           none, none⟩,
          ⟨2, 1, "Вакцина", "vet", ⟨2026, 3, 1⟩, none, none, "", true, false,
           none, some 1⟩,
          ⟨3, 1, "Вакцина", "vet", ⟨2025, 6, 1⟩, none, none, "", true, false,
           none, none⟩], 4, []⟩
        ⟨1, 1, "Вакцина", "vet", ⟨2025, 3, 1⟩, none, none, "", true, false,
          none, none⟩) := by
  constructor
  · rfl
  · decide

lemma triple_beq_iff (x ev : Event) :
    (x.pet == ev.pet && x.title == ev.title && x.is_yearly) = true ↔
      (x.pet = ev.pet ∧ x.title = ev.title ∧ x.is_yearly = true) := by
  simp only [Bool.and_eq_true, beq_iff_eq]
  tauto

lemma doomed_pred_iff (st : St) (ev x : Event) :
    (!((x.pet == ev.pet && x.title == ev.title && x.is_yearly) ||
       st.events.any (fun h0 => (h0.pet == ev.pet && h0.title == ev.title &&
         h0.is_yearly) && x.original_event == some h0.id))) = true ↔
      ¬((x.pet = ev.pet ∧ x.title = ev.title ∧ x.is_yearly = true) ∨
        ∃ h0 ∈ st.events, (h0.pet = ev.pet ∧ h0.title = ev.title ∧
          h0.is_yearly = true) ∧ x.original_event = some h0.id) := by
  rw [Bool.not_eq_true']
  constructor
  · intro h hc
    obtain ⟨h1, h2⟩ := Bool.or_eq_false_iff.1 h
    rcases hc with hc | ⟨h0, hm, htrip, href⟩
    · rw [(triple_beq_iff x ev).2 hc] at h1
      cases h1
    · rw [List.any_eq_false] at h2
      refine h2 h0 hm ?_
      rw [Bool.and_eq_true]
      exact ⟨(triple_beq_iff h0 ev).2 htrip, by rw [href]; simp⟩
  · intro hneg
    rw [Bool.or_eq_false_iff]
    constructor
    · cases hb : (x.pet == ev.pet && x.title == ev.title && x.is_yearly)
      · rfl
      · exact absurd (Or.inl ((triple_beq_iff x ev).1 hb)) hneg
    · rw [List.any_eq_false]
      intro h0 hm hcb
      rw [Bool.and_eq_true] at hcb
      obtain ⟨ht, hr⟩ := hcb
      exact hneg (Or.inr ⟨h0, hm, (triple_beq_iff h0 ev).1 ht,
        by simpa using hr⟩)

/-- C5 amended: `delete_event` with `delete_all = true` on a yearly entry
removes, with no error, exactly the yearly entries of the same pet carrying
the same title together with every continuation whose head reference points
at one of them (the foreign-key cascade); when that title scope coincides
with the resolved series of the entry and continuations reference only
series members, it deletes exactly the resolved series. -/
theorem C5_delete_series_scope (st : St) (eid : Nat) (ev : Event) (st' : St)
    (err : Option String)
    (hfind : st.events.find? (fun e => e.id == eid) = some ev)
    (hyearly : ev.is_yearly = true)
    (h : delete_event st eid true = some (st', err)) :
    err = none ∧
    (∀ x ∈ st.events,
      (x ∈ st'.events ↔
        ¬((x.pet = ev.pet ∧ x.title = ev.title ∧ x.is_yearly = true) ∨
          ∃ h0 ∈ st.events, (h0.pet = ev.pet ∧ h0.title = ev.title ∧
            h0.is_yearly = true) ∧ x.original_event = some h0.id))) ∧
    ((∀ x ∈ st.events,
        ((x.pet = ev.pet ∧ x.title = ev.title ∧ x.is_yearly = true) ↔
          x ∈ get_series_events st ev)) →
     (∀ x ∈ st.events, ∀ h0 ∈ st.events,
        (h0.pet = ev.pet ∧ h0.title = ev.title ∧ h0.is_yearly = true) →
        x.original_event = some h0.id → x ∈ get_series_events st ev) →
      ∀ x ∈ st.events, (x ∈ st'.events ↔ x ∉ get_series_events st ev)) := by
  unfold delete_event at h
  rw [hfind] at h
  dsimp only at h
  rw [hyearly] at h
  simp only [Bool.not_true, Bool.and_false, Bool.false_eq_true, if_false,
    Bool.and_true, Bool.true_and, if_true, Option.some.injEq,
    Prod.mk.injEq] at h
  obtain ⟨hst, herr⟩ := h
  have hmem : ∀ x ∈ st.events,
      (x ∈ st'.events ↔
        ¬((x.pet = ev.pet ∧ x.title = ev.title ∧ x.is_yearly = true) ∨
          ∃ h0 ∈ st.events, (h0.pet = ev.pet ∧ h0.title = ev.title ∧
            h0.is_yearly = true) ∧ x.original_event = some h0.id)) := by
    intro x hx
    rw [← hst]
    constructor
    · intro hmem'
      exact (doomed_pred_iff st ev x).1 (List.mem_filter.1 hmem').2
    · intro hneg
      exact List.mem_filter.2 ⟨hx, (doomed_pred_iff st ev x).2 hneg⟩
  refine ⟨herr.symm, hmem, ?_⟩
  intro hscope hlink x hx
  rw [hmem x hx]
  constructor
  · intro hnot hser
    exact hnot (Or.inl ((hscope x hx).2 hser))
  · intro hnser
    rintro (htrip | ⟨h0, hm, htrip0, href⟩)
    · exact hnser ((hscope x hx).1 htrip)
    · exact hnser (hlink x hx h0 hm htrip0 href)

/-- Witness for the amended C5: deleting a series whose head and first
continuation carry the title also cascades onto a renamed continuation of
that head, while the unrelated entry survives — both facts obtained from the
membership characterisation at concrete rows. -/
theorem C5_delete_series_scope_witness :
    ((⟨3, 2, "Переименована", "vet", ⟨2027, 3, 1⟩, none, none, "", true,
        false, none, some 1⟩ : Event) ∈
      (St.mk [⟨4, 2, "Другое", "walk", ⟨2025, 5, 1⟩, none, none, "", true,
        false, none, none⟩] 5 []).events ↔
      ¬(((⟨3, 2, "Переименована", "vet", ⟨2027, 3, 1⟩, none, none, "", true,
            false, none, some 1⟩ : Event).pet = 2 ∧
         (⟨3, 2, "Переименована", "vet", ⟨2027, 3, 1⟩, none, none, "", true,
            false, none, some 1⟩ : Event).title = "Вакцина" ∧
         (⟨3, 2, "Переименована", "vet", ⟨2027, 3, 1⟩, none, none, "", true,
            false, none, some 1⟩ : Event).is_yearly = true) ∨
        ∃ h0 ∈ (St.mk
            [⟨1, 2, "Вакцина", "vet", ⟨2025, 3, 1⟩, none, none, "", true,
              false, none, none⟩,
             ⟨2, 2, "Вакцина", "vet", ⟨2026, 3, 1⟩, none, none, "", true,
              false, none, some 1⟩,
             ⟨3, 2, "Переименована", "vet", ⟨2027, 3, 1⟩, none, none, "",
              true, false, none, some 1⟩,
             ⟨4, 2, "Другое", "walk", ⟨2025, 5, 1⟩, none, none, "", true,
              false, none, none⟩] 5 []).events,
          (h0.pet = 2 ∧ h0.title = "Вакцина" ∧ h0.is_yearly = true) ∧
          (⟨3, 2, "Переименована", "vet", ⟨2027, 3, 1⟩, none, none, "", true,
             false, none, some 1⟩ : Event).original_event = some h0.id)) ∧
    ((⟨4, 2, "Другое", "walk", ⟨2025, 5, 1⟩, none, none, "", true, false,
        none, none⟩ : Event) ∈
      (St.mk [⟨4, 2, "Другое", "walk", ⟨2025, 5, 1⟩, none, none, "", true,
        false, none, none⟩] 5 []).events ↔
      ¬(((⟨4, 2, "Другое", "walk", ⟨2025, 5, 1⟩, none, none, "", true, false,
            none, none⟩ : Event).pet = 2 ∧
         (⟨4, 2, "Другое", "walk", ⟨2025, 5, 1⟩, none, none, "", true, false,
            none, none⟩ : Event).title = "Вакцина" ∧
         (⟨4, 2, "Другое", "walk", ⟨2025, 5, 1⟩, none, none, "", true, false,
            none, none⟩ : Event).is_yearly = true) ∨
        ∃ h0 ∈ (St.mk
            [⟨1, 2, "Вакцина", "vet", ⟨2025, 3, 1⟩, none, none, "", true,
              false, none, none⟩,
             ⟨2, 2, "Вакцина", "vet", ⟨2026, 3, 1⟩, none, none, "", true,
              false, none, some 1⟩,
             ⟨3, 2, "Переименована", "vet", ⟨2027, 3, 1⟩, none, none, "",
              true, false, none, some 1⟩,
             ⟨4, 2, "Другое", "walk", ⟨2025, 5, 1⟩, none, none, "", true,
              false, none, none⟩] 5 []).events,
          (h0.pet = 2 ∧ h0.title = "Вакцина" ∧ h0.is_yearly = true) ∧
          (⟨4, 2, "Другое", "walk", ⟨2025, 5, 1⟩, none, none, "", true,
             false, none, none⟩ : Event).original_event = some h0.id)) :=
  ⟨(C5_delete_series_scope
      ⟨[⟨1, 2, "Вакцина", "vet", ⟨2025, 3, 1⟩, none, none, "", true, false,
         none, none⟩,
        ⟨2, 2, "Вакцина", "vet", ⟨2026, 3, 1⟩, none, none, "", true, false,
         none, some 1⟩,
        ⟨3, 2, "Переименована", "vet", ⟨2027, 3, 1⟩, none, none, "", true,
         false, none, some 1⟩,
        ⟨4, 2, "Другое", "walk", ⟨2025, 5, 1⟩, none, none, "", true, false,
         none, none⟩], 5, []⟩
      1
      ⟨1, 2, "Вакцина", "vet", ⟨2025, 3, 1⟩, none, none, "", true, false,
        none, none⟩
      ⟨[⟨4, 2, "Другое", "walk", ⟨2025, 5, 1⟩, none, none, "", true, false,
         none, none⟩], 5, []⟩
      none (by decide) (by decide) (by decide)).2.1
    ⟨3, 2, "Переименована", "vet", ⟨2027, 3, 1⟩, none, none, "", true, false,
      none, some 1⟩ (by decide),
   (C5_delete_series_scope
      ⟨[⟨1, 2, "Вакцина", "vet", ⟨2025, 3, 1⟩, none, none, "", true, false,
         none, none⟩,
        ⟨2, 2, "Вакцина", "vet", ⟨2026, 3, 1⟩, none, none, "", true, false,
         none, some 1⟩,
        ⟨3, 2, "Переименована", "vet", ⟨2027, 3, 1⟩, none, none, "", true,
         false, none, some 1⟩,
        ⟨4, 2, "Другое", "walk", ⟨2025, 5, 1⟩, none, none, "", true, false,
         none, none⟩], 5, []⟩
      1
      ⟨1, 2, "Вакцина", "vet", ⟨2025, 3, 1⟩, none, none, "", true, false,
        none, none⟩
      ⟨[⟨4, 2, "Другое", "walk", ⟨2025, 5, 1⟩, none, none, "", true, false,
         none, none⟩], 5, []⟩
      none (by decide) (by decide) (by decide)).2.1
    ⟨4, 2, "Другое", "walk", ⟨2025, 5, 1⟩, none, none, "", true, false,
      none, none⟩ (by decide)⟩

lemma editFields_frame (ev : Event) (fd : EventFormData) (nd : Date) :
    (editFields ev fd nd).id = ev.id ∧
    (editFields ev fd nd).original_event = ev.original_event ∧
    (editFields ev fd nd).is_done = ev.is_done ∧
    (editFields ev fd nd).done_year = ev.done_year ∧
    (editFields ev fd nd).pet = ev.pet :=
  ⟨rfl, rfl, rfl, rfl, rfl⟩

lemma upd_go_mem (dbe : List Event) (fd : EventFormData) (ud : Bool) :
    ∀ (evs : List Event) (used : List (String × Date)) (acc out : List Event),
      upd_go dbe fd ud used acc evs = some out →
      ∀ u ∈ out, u ∈ acc ∨ ∃ ev ∈ evs, ∃ nd, u = editFields ev fd nd := by
  intro evs
  induction evs with
  | nil =>
    intro used acc out h u hu
    unfold upd_go at h
    injection h with h
    left
    rw [h]
    exact hu
  | cons ev rest ih =>
    intro used acc out h u hu
    unfold upd_go at h
    cases hnd : (if ud then mkDate ev.date.year fd.date.month fd.date.day
        else some ev.date) with
    | none => rw [hnd] at h; cases h
    | some nd =>
      rw [hnd] at h
      dsimp only at h
      by_cases hin : (fd.title, nd) ∈ used
      · rw [if_pos hin] at h
        rcases ih _ _ _ h u hu with hacc | ⟨ev', hev', nd', heq⟩
        · exact Or.inl hacc
        · exact Or.inr ⟨ev', List.mem_cons_of_mem _ hev', nd', heq⟩
      · rw [if_neg hin] at h
        by_cases hdup :
            check_duplicate dbe ev.pet fd.title nd (some ev.id) = true
        · rw [if_pos hdup] at h
          rcases ih _ _ _ h u hu with hacc | ⟨ev', hev', nd', heq⟩
          · exact Or.inl hacc
          · exact Or.inr ⟨ev', List.mem_cons_of_mem _ hev', nd', heq⟩
        · rw [if_neg hdup] at h
          rcases ih _ _ _ h u hu with hacc | ⟨ev', hev', nd', heq⟩
          · rcases List.mem_append.1 hacc with hl | hr
            · exact Or.inl hl
            · refine Or.inr ⟨ev, List.mem_cons_self _ _, nd, ?_⟩
              simpa using hr
          · exact Or.inr ⟨ev', List.mem_cons_of_mem _ hev', nd', heq⟩

/-- C10: fields outside the edit set survive `update_events`: each accepted
entry keeps its source entry's id, head reference (`original_event`),
completion flag and year, and owner (pet); each row of the resulting state
keeps the same protected fields of its pre-state row; rows with no accepted
entry of matching id — in particular entries skipped by the duplicate
check — are left entirely unchanged; the id counter and reminders are
untouched. -/
theorem C10_update_events_frame (st : St) (events : List Event)
    (fd : EventFormData) (ud : Bool) (st' : St) (updated : List Event)
    (h : update_events st events fd ud = some (st', updated)) :
    (∀ u ∈ updated, ∃ ev ∈ events, u.id = ev.id ∧
      u.original_event = ev.original_event ∧ u.is_done = ev.is_done ∧
      u.done_year = ev.done_year ∧ u.pet = ev.pet) ∧
    (∀ row ∈ st.events, updated.find? (fun u => u.id == row.id) = none →
      row ∈ st'.events) ∧
    (∀ row' ∈ st'.events, ∃ row ∈ st.events, row'.id = row.id ∧
      row'.original_event = row.original_event ∧ row'.is_done = row.is_done ∧
      row'.done_year = row.done_year ∧ row'.pet = row.pet) ∧
    st'.nextId = st.nextId ∧ st'.reminders = st.reminders := by
  unfold update_events at h
  cases hgo : upd_go st.events fd ud [] [] events with
  | none => rw [hgo] at h; cases h
  | some out =>
    rw [hgo] at h
    simp only [Option.some.injEq, Prod.mk.injEq] at h
    obtain ⟨hst, hupd⟩ := h
    subst hupd
    refine ⟨?_, ?_, ?_, ?_, ?_⟩
    · intro u hu
      rcases upd_go_mem st.events fd ud events [] [] out hgo u hu with
        hacc | ⟨ev, hev, nd, heq⟩
      · cases hacc
      · exact ⟨ev, hev, by rw [heq]; exact (editFields_frame ev fd nd).1,
          by rw [heq]; exact (editFields_frame ev fd nd).2.1,
          by rw [heq]; exact (editFields_frame ev fd nd).2.2.1,
          by rw [heq]; exact (editFields_frame ev fd nd).2.2.2.1,
          by rw [heq]; exact (editFields_frame ev fd nd).2.2.2.2⟩
    · intro row hrow hnone
      rw [← hst]
      refine List.mem_map.2 ⟨row, hrow, ?_⟩
      rw [hnone]
    · intro row' hrow'
      rw [← hst] at hrow'
      rcases List.mem_map.1 hrow' with ⟨row, hrow, hf⟩
      refine ⟨row, hrow, ?_⟩
      rw [← hf]
      cases hfind : out.find? (fun u => u.id == row.id) with
      | none => exact ⟨rfl, rfl, rfl, rfl, rfl⟩
      | some u =>
        exact ⟨rfl, rfl, rfl, rfl, rfl⟩
    · rw [← hst]
    · rw [← hst]

/-- Witness for C10: a concrete two-entry edit where the first entry is
skipped by the duplicate check; the accepted entry keeps its id, head
reference, completion flag and year, and pet. -/
theorem C10_update_events_frame_witness :
    ∃ ev ∈ ([⟨1, 1, "A", "t", ⟨2025, 1, 1⟩, none, none, "", false, false,
              none, none⟩,
             ⟨2, 1, "B", "t", ⟨2025, 1, 1⟩, none, none, "", false, true,
              some 2024, some 9⟩] : List Event),
      (⟨2, 1, "B", "t2", ⟨2025, 1, 1⟩, none, none, "note", false, true,
          some 2024, some 9⟩ : Event).id = ev.id ∧
      (⟨2, 1, "B", "t2", ⟨2025, 1, 1⟩, none, none, "note", false, true,
          some 2024, some 9⟩ : Event).original_event = ev.original_event ∧
      (⟨2, 1, "B", "t2", ⟨2025, 1, 1⟩, none, none, "note", false, true,
          some 2024, some 9⟩ : Event).is_done = ev.is_done ∧
      (⟨2, 1, "B", "t2", ⟨2025, 1, 1⟩, none, none, "note", false, true,
          some 2024, some 9⟩ : Event).done_year = ev.done_year ∧
      (⟨2, 1, "B", "t2", ⟨2025, 1, 1⟩, none, none, "note", false, true,
          some 2024, some 9⟩ : Event).pet = ev.pet :=
  (C10_update_events_frame
      ⟨[⟨1, 1, "A", "t", ⟨2025, 1, 1⟩, none, none, "", false, false, none,
         none⟩,
        ⟨2, 1, "B", "t", ⟨2025, 1, 1⟩, none, none, "", false, true, some 2024,
         some 9⟩], 3, []⟩
      [⟨1, 1, "A", "t", ⟨2025, 1, 1⟩, none, none, "", false, false, none,
        none⟩,
       ⟨2, 1, "B", "t", ⟨2025, 1, 1⟩, none, none, "", false, true, some 2024,
        some 9⟩]
      ⟨"B", "t2", ⟨2030, 5, 5⟩, none, none, "note", false⟩ false
      ⟨[⟨1, 1, "A", "t", ⟨2025, 1, 1⟩, none, none, "", false, false, none,
         none⟩,
        ⟨2, 1, "B", "t2", ⟨2025, 1, 1⟩, none, none, "note", false, true,
         some 2024, some 9⟩], 3, []⟩
      [⟨2, 1, "B", "t2", ⟨2025, 1, 1⟩, none, none, "note", false, true,
        some 2024, some 9⟩]
      (by decide)).1
    ⟨2, 1, "B", "t2", ⟨2025, 1, 1⟩, none, none, "note", false, true,
      some 2024, some 9⟩ (by decide)

lemma get_safe_date_year {y : Int} {m d : Nat} {dt : Date}
    (h : get_safe_date y m d = some dt) : dt.year = y := by
  unfold get_safe_date mkDate at h
  by_cases h1 : dateOK y m d
  · rw [if_pos h1] at h
    injection h with h
    rw [← h]
  · rw [if_neg h1] at h
    by_cases h2 : (m == 2 && d == 29) = true
    · rw [if_pos h2] at h
      by_cases h3 : dateOK y 2 28
      · rw [if_pos h3] at h
        injection h with h
        rw [← h]
      · rw [if_neg h3] at h
        cases h
    · rw [if_neg h2] at h
      cases h

lemma check_duplicate_append (evs tail : List Event) (p : Nat) (t : String)
    (d : Date) (x : Option Nat)
    (h : check_duplicate evs p t d x = true) :
    check_duplicate (evs ++ tail) p t d x = true := by
  unfold check_duplicate at h ⊢
  rw [List.any_append, h]
  rfl

lemma rollover_step_cases (ty : Int) (st : St) (e : Event) (st1 : St)
    (created : Bool) (h : rollover_step ty st e = some (st1, created)) :
    ∃ nd, get_safe_date ty e.date.month e.date.day = some nd ∧
      ((check_duplicate st.events e.pet e.title nd none = true ∧
        st1 = st ∧ created = false) ∨
       (check_duplicate st.events e.pet e.title nd none = false ∧
        st1 = ⟨st.events ++ [rolloverEvent st e nd], st.nextId + 1,
               st.reminders⟩ ∧ created = true)) := by
  unfold rollover_step at h
  cases hnd : get_safe_date ty e.date.month e.date.day with
  | none => rw [hnd] at h; cases h
  | some nd =>
    rw [hnd] at h
    dsimp only at h
    refine ⟨nd, rfl, ?_⟩
    by_cases hdup : check_duplicate st.events e.pet e.title nd none = true
    · rw [if_pos hdup] at h
      injection h with h
      injection h with h1 h2
      exact Or.inl ⟨hdup, h1.symm, h2.symm⟩
    · rw [if_neg hdup] at h
      injection h with h
      injection h with h1 h2
      exact Or.inr ⟨eq_false_of_ne_true hdup, h1.symm, h2.symm⟩

lemma rollover_go_append (ty : Int) :
    ∀ (cands : List Event) (st : St) (cnt : Nat) (st' : St) (cnt' : Nat),
      rollover_go ty st cnt cands = some (st', cnt') →
      ∃ tail, st'.events = st.events ++ tail ∧
        (∀ t ∈ tail, t.date.year = ty) ∧ st'.reminders = st.reminders := by
  intro cands
  induction cands with
  | nil =>
    intro st cnt st' cnt' h
    unfold rollover_go at h
    injection h with h
    injection h with h1 h2
    refine ⟨[], ?_, ?_, ?_⟩
    · rw [← h1, List.append_nil]
    · intro t ht
      cases ht
    · rw [← h1]
  | cons e rest ih =>
    intro st cnt st' cnt' h
    unfold rollover_go at h
    cases hstep : rollover_step ty st e with
    | none => rw [hstep] at h; cases h
    | some p =>
      rw [hstep] at h
      obtain ⟨st1, created⟩ := p
      obtain ⟨nd, hnd, hcase⟩ := rollover_step_cases ty st e st1 created hstep
      obtain ⟨tail1, hev1, hty1, hrem1⟩ := ih st1 _ st' cnt' h
      rcases hcase with ⟨_, hst1, _⟩ | ⟨_, hst1, _⟩
      · exact ⟨tail1, by rw [hev1, hst1], hty1, by rw [hrem1, hst1]⟩
      · refine ⟨rolloverEvent st e nd :: tail1, ?_, ?_, by rw [hrem1, hst1]⟩
        · rw [hev1, hst1]
          simp
        · intro t ht
          rcases List.mem_cons.1 ht with ht1 | ht2
          · rw [ht1]
            exact get_safe_date_year hnd
          · exact hty1 t ht2

lemma rollover_go_dup (ty : Int) :
    ∀ (cands : List Event) (st : St) (cnt : Nat) (st' : St) (cnt' : Nat),
      rollover_go ty st cnt cands = some (st', cnt') →
      ∀ e ∈ cands, ∃ nd, get_safe_date ty e.date.month e.date.day = some nd ∧
        check_duplicate st'.events e.pet e.title nd none = true := by
  intro cands
  induction cands with
  | nil =>
    intro st cnt st' cnt' _ e he
    cases he
  | cons e rest ih =>
    intro st cnt st' cnt' h e' he'
    unfold rollover_go at h
    cases hstep : rollover_step ty st e with
    | none => rw [hstep] at h; cases h
    | some p =>
      rw [hstep] at h
      obtain ⟨st1, created⟩ := p
      obtain ⟨nd, hnd, hcase⟩ := rollover_step_cases ty st e st1 created hstep
      rcases List.mem_cons.1 he' with he1 | he2
      · subst he1
        obtain ⟨tail1, hev1, _, _⟩ :=
          rollover_go_append ty rest st1 _ st' cnt' h
        refine ⟨nd, hnd, ?_⟩
        rcases hcase with ⟨hdup, hst1, _⟩ | ⟨_, hst1, _⟩
        · rw [hev1, hst1]
          exact check_duplicate_append _ _ _ _ _ _ hdup
        · rw [hev1, hst1]
          have hmatch : check_duplicate
              (st.events ++ [rolloverEvent st e' nd]) e'.pet e'.title nd
              none = true := by
            unfold check_duplicate
            rw [List.any_append, Bool.or_eq_true]
            right
            simp [rolloverEvent]
          exact check_duplicate_append _ _ _ _ _ _ hmatch
      · exact ih st1 _ st' cnt' h e' he2

lemma rollover_go_skip (ty : Int) :
    ∀ (cands : List Event) (st : St) (cnt : Nat),
      (∀ e ∈ cands, ∃ nd, get_safe_date ty e.date.month e.date.day = some nd ∧
        check_duplicate st.events e.pet e.title nd none = true) →
      rollover_go ty st cnt cands = some (st, cnt) := by
  intro cands
  induction cands with
  | nil => intro st cnt _; rfl
  | cons e rest ih =>
    intro st cnt hall
    obtain ⟨nd, hnd, hdup⟩ := hall e (List.mem_cons_self _ _)
    unfold rollover_go rollover_step
    rw [hnd]
    dsimp only
    rw [if_pos hdup]
    exact ih st cnt (fun e' he' => hall e' (List.mem_cons_of_mem _ he'))

/-- C6: the rollover job is idempotent — whenever a first run for
`current_year` completes, running it again on the resulting state with the
same current date creates zero additional entries and leaves the state
unchanged: every candidate's (title, date) pair now fails the duplicate
check. -/
theorem C6_rollover_idempotent (cy : Int) (st st1 : St) (n1 : Nat)
    (h : create_next_year_events cy st = some (st1, n1)) :
    create_next_year_events cy st1 = some (st1, 0) := by
  unfold create_next_year_events at h ⊢
  obtain ⟨tail, hev, htail, _⟩ := rollover_go_append (cy + 2) _ st 0 st1 n1 h
  have hcand :
      st1.events.filter (fun e => e.is_yearly && e.date.year == cy - 1) =
        st.events.filter (fun e => e.is_yearly && e.date.year == cy - 1) := by
    rw [hev, List.filter_append]
    have hnil :
        tail.filter (fun e => e.is_yearly && e.date.year == cy - 1) = [] := by
      rw [List.filter_eq_nil_iff]
      intro t ht
      have hty := htail t ht
      simp only [Bool.and_eq_true, beq_iff_eq, hty, not_and]
      intro _
      omega
    rw [hnil, List.append_nil]
  rw [hcand]
  exact rollover_go_skip (cy + 2) _ st1 0
    (rollover_go_dup (cy + 2) _ st 0 st1 n1 h)

/-- Witness for C6: starting from one yearly event dated 2025 with current
year 2026, the first run creates the 2028 continuation; the second run on
that state creates nothing and changes nothing. -/
theorem C6_rollover_idempotent_witness :
    create_next_year_events 2026
        ⟨[⟨1, 1, "Осмотр", "vet", ⟨2025, 4, 10⟩, none, none, "", true, false,
           none, none⟩,
          ⟨2, 1, "Осмотр", "vet", ⟨2028, 4, 10⟩, none, none, "", true, false,
           none, some 1⟩], 3, []⟩ =
      some (⟨[⟨1, 1, "Осмотр", "vet", ⟨2025, 4, 10⟩, none, none, "", true,
               false, none, none⟩,
              ⟨2, 1, "Осмотр", "vet", ⟨2028, 4, 10⟩, none, none, "", true,
               false, none, some 1⟩], 3, []⟩, 0) :=
  C6_rollover_idempotent 2026
    ⟨[⟨1, 1, "Осмотр", "vet", ⟨2025, 4, 10⟩, none, none, "", true, false,
       none, none⟩], 2, []⟩
    ⟨[⟨1, 1, "Осмотр", "vet", ⟨2025, 4, 10⟩, none, none, "", true, false,
       none, none⟩,
      ⟨2, 1, "Осмотр", "vet", ⟨2028, 4, 10⟩, none, none, "", true, false,
       none, some 1⟩], 3, []⟩ 1 (by decide)

lemma upd_go_accept (dbe : List Event) (fd : EventFormData)
    (used : List (String × Date)) (acc : List Event) (ev : Event)
    (rest : List Event)
    (hpair : (fd.title, ev.date) ∉ used)
    (hdup : check_duplicate dbe ev.pet fd.title ev.date (some ev.id) = false) :
    upd_go dbe fd false used acc (ev :: rest) =
      upd_go dbe fd false ((fd.title, ev.date) :: used)
        (acc ++ [editFields ev fd ev.date]) rest := by
  conv_lhs => unfold upd_go
  rw [show (if false = true then mkDate ev.date.year fd.date.month fd.date.day
        else some ev.date) = some ev.date from rfl]
  dsimp only
  rw [if_neg hpair, if_neg (by rw [hdup]; simp)]

lemma overlay_id (updated : List Event) (r : Event) :
    (match updated.find? (fun (u : Event) => u.id == r.id) with
     | some u => applyUpdate r u
     | none => r).id = r.id := by
  cases hfind : updated.find? (fun (u : Event) => u.id == r.id) with
  | none => rfl
  | some u => rfl

lemma overlay_map_idem (l updated : List Event) :
    ((l.map (fun row => match updated.find? (fun u => u.id == row.id) with
        | some u => applyUpdate row u
        | none => row)).map
      (fun row => match updated.find? (fun u => u.id == row.id) with
        | some u => applyUpdate row u
        | none => row)) =
      l.map (fun row => match updated.find? (fun u => u.id == row.id) with
        | some u => applyUpdate row u
        | none => row) := by
  rw [List.map_map]
  apply List.map_congr_left
  intro r _
  simp only [Function.comp_apply]
  have hfun : (fun (u : Event) => u.id ==
      (match updated.find? (fun (v : Event) => v.id == r.id) with
       | some u => applyUpdate r u
       | none => r).id) = (fun (u : Event) => u.id == r.id) := by
    funext u
    rw [overlay_id]
  rw [hfun]
  cases hfind : updated.find? (fun (u : Event) => u.id == r.id) with
  | none => simp only [hfind]
  | some u => simp only [hfind]; rfl

lemma dup_false_overlay (stevs : List Event) (updated : List Event) (p : Nat)
    (t : String) (d : Date) (i : Nat)
    (hi : i ≠ 0)
    (hdup : check_duplicate stevs p t d (some i) = false)
    (hupd : ∀ u ∈ updated, u.date = d → u.id = i) :
    check_duplicate (stevs.map (fun row =>
        match updated.find? (fun u => u.id == row.id) with
        | some u => applyUpdate row u
        | none => row)) p t d (some i) = false := by
  unfold check_duplicate at hdup ⊢
  rw [List.any_map]
  rw [List.any_eq_false] at hdup ⊢
  intro r hr
  have hpr := hdup r hr
  simp only [Function.comp_apply]
  cases hfind : updated.find? (fun (u : Event) => u.id == r.id) with
  | none =>
    simp only [hfind]
    exact hpr
  | some u =>
    simp only [hfind]
    intro hcontra
    have humem : u ∈ updated := List.mem_of_find?_eq_some hfind
    have hid_r : u.id = r.id := by simpa using List.find?_some hfind
    rw [if_pos hi] at hcontra
    simp only [applyUpdate, Bool.and_eq_true, beq_iff_eq, bne_iff_ne] at hcontra
    obtain ⟨⟨⟨_, _⟩, hdate⟩, hexcl⟩ := hcontra
    exact hexcl (hid_r ▸ hupd u humem hdate)

/-- C8: a series-wide edit of a 3-entry series with `update_date = false`
and a fresh title accepts all three entries, keeps every entry's own date,
sets the new title on all of them, and is idempotent — re-running the
identical edit on the resulting state accepts the same entries and returns
the state unchanged. -/
theorem C8_update_events_title_idempotent
    (st : St) (e1 e2 e3 : Event) (fd : EventFormData)
    (hid1 : e1.id ≠ 0) (hid2 : e2.id ≠ 0) (hid3 : e3.id ≠ 0)
    (hd12 : e1.date ≠ e2.date) (hd13 : e1.date ≠ e3.date)
    (hd23 : e2.date ≠ e3.date)
    (hdup1 : check_duplicate st.events e1.pet fd.title e1.date
      (some e1.id) = false)
    (hdup2 : check_duplicate st.events e2.pet fd.title e2.date
      (some e2.id) = false)
    (hdup3 : check_duplicate st.events e3.pet fd.title e3.date
      (some e3.id) = false) :
    ∃ st1 : St,
      update_events st [e1, e2, e3] fd false =
        some (st1, [editFields e1 fd e1.date, editFields e2 fd e2.date,
                    editFields e3 fd e3.date]) ∧
      ((editFields e1 fd e1.date).date = e1.date ∧
       (editFields e2 fd e2.date).date = e2.date ∧
       (editFields e3 fd e3.date).date = e3.date ∧
       (editFields e1 fd e1.date).title = fd.title ∧
       (editFields e2 fd e2.date).title = fd.title ∧
       (editFields e3 fd e3.date).title = fd.title) ∧
      update_events st1 [editFields e1 fd e1.date, editFields e2 fd e2.date,
          editFields e3 fd e3.date] fd false =
        some (st1, [editFields e1 fd e1.date, editFields e2 fd e2.date,
                    editFields e3 fd e3.date]) := by
  have hp1 : (fd.title, e1.date) ∉ ([] : List (String × Date)) :=
    List.not_mem_nil _
  have hp2 : (fd.title, e2.date) ∉ [(fd.title, e1.date)] := by
    intro hmem
    exact hd12 (congrArg Prod.snd (List.mem_singleton.1 hmem)).symm
  have hp3 : (fd.title, e3.date) ∉ [(fd.title, e2.date), (fd.title, e1.date)] := by
    intro hmem
    rcases List.mem_cons.1 hmem with h | h
    · exact hd23 (congrArg Prod.snd h).symm
    · exact hd13 (congrArg Prod.snd (List.mem_singleton.1 h)).symm
  have hrun1 : upd_go st.events fd false [] [] [e1, e2, e3] =
      some [editFields e1 fd e1.date, editFields e2 fd e2.date,
            editFields e3 fd e3.date] := by
    rw [upd_go_accept st.events fd [] [] e1 [e2, e3] hp1 hdup1,
        upd_go_accept st.events fd _ _ e2 [e3] hp2 hdup2,
        upd_go_accept st.events fd _ _ e3 [] hp3 hdup3]
    rfl
  have hupd1 : ∀ u ∈ [editFields e1 fd e1.date, editFields e2 fd e2.date,
      editFields e3 fd e3.date], u.date = e1.date → u.id = e1.id := by
    intro u hu
    simp only [List.mem_cons, List.not_mem_nil, or_false] at hu
    rcases hu with h | h | h <;> subst h
    · intro _; rfl
    · intro hd; exact absurd hd.symm hd12
    · intro hd; exact absurd hd.symm hd13
  have hupd2 : ∀ u ∈ [editFields e1 fd e1.date, editFields e2 fd e2.date,
      editFields e3 fd e3.date], u.date = e2.date → u.id = e2.id := by
    intro u hu
    simp only [List.mem_cons, List.not_mem_nil, or_false] at hu
    rcases hu with h | h | h <;> subst h
    · intro hd; exact absurd hd hd12
    · intro _; rfl
    · intro hd; exact absurd hd.symm hd23
  have hupd3 : ∀ u ∈ [editFields e1 fd e1.date, editFields e2 fd e2.date,
      editFields e3 fd e3.date], u.date = e3.date → u.id = e3.id := by
    intro u hu
    simp only [List.mem_cons, List.not_mem_nil, or_false] at hu
    rcases hu with h | h | h <;> subst h
    · intro hd; exact absurd hd hd13
    · intro hd; exact absurd hd hd23
    · intro _; rfl
  refine ⟨⟨st.events.map (fun row =>
      match [editFields e1 fd e1.date, editFields e2 fd e2.date,
             editFields e3 fd e3.date].find? (fun u => u.id == row.id) with
      | some u => applyUpdate row u
      | none => row), st.nextId, st.reminders⟩, ?_,
    ⟨rfl, rfl, rfl, rfl, rfl, rfl⟩, ?_⟩
  · unfold update_events
    rw [hrun1]
  · have hdup21 := dup_false_overlay st.events
      [editFields e1 fd e1.date, editFields e2 fd e2.date,
       editFields e3 fd e3.date] e1.pet fd.title e1.date e1.id hid1 hdup1 hupd1
    have hdup22 := dup_false_overlay st.events
      [editFields e1 fd e1.date, editFields e2 fd e2.date,
       editFields e3 fd e3.date] e2.pet fd.title e2.date e2.id hid2 hdup2 hupd2
    have hdup23 := dup_false_overlay st.events
      [editFields e1 fd e1.date, editFields e2 fd e2.date,
       editFields e3 fd e3.date] e3.pet fd.title e3.date e3.id hid3 hdup3 hupd3
    have hrun2 : upd_go (st.events.map (fun row =>
        match [editFields e1 fd e1.date, editFields e2 fd e2.date,
               editFields e3 fd e3.date].find? (fun u => u.id == row.id) with
        | some u => applyUpdate row u
        | none => row)) fd false [] []
        [editFields e1 fd e1.date, editFields e2 fd e2.date,
         editFields e3 fd e3.date] =
        some [editFields e1 fd e1.date, editFields e2 fd e2.date,
              editFields e3 fd e3.date] := by
      rw [upd_go_accept _ fd [] [] (editFields e1 fd e1.date)
            [editFields e2 fd e2.date, editFields e3 fd e3.date] hp1 hdup21]
      rw [show (editFields e1 fd e1.date).date = e1.date from rfl]
      rw [upd_go_accept _ fd _ _ (editFields e2 fd e2.date)
            [editFields e3 fd e3.date] hp2 hdup22]
      rw [show (editFields e2 fd e2.date).date = e2.date from rfl]
      rw [upd_go_accept _ fd _ _ (editFields e3 fd e3.date) [] hp3 hdup23]
      rfl
    unfold update_events
    dsimp only
    rw [hrun2]
    dsimp only
    rw [overlay_map_idem]

/-- Witness for C8: a concrete 3-entry series renamed with `update_date`
off; all three are accepted, dates kept, and the rerun is a no-op. -/
theorem C8_update_events_title_idempotent_witness :
    ∃ st1 : St,
      update_events
          ⟨[⟨1, 5, "Старое", "vet", ⟨2025, 3, 15⟩, none, none, "", true,
             false, none, none⟩,
            ⟨2, 5, "Старое", "vet", ⟨2026, 3, 15⟩, none, none, "", true,
             false, none, some 1⟩,
            ⟨3, 5, "Старое", "vet", ⟨2027, 3, 15⟩, none, none, "", true,
             false, none, some 1⟩], 4, []⟩
          [⟨1, 5, "Старое", "vet", ⟨2025, 3, 15⟩, none, none, "", true,
            false, none, none⟩,
           ⟨2, 5, "Старое", "vet", ⟨2026, 3, 15⟩, none, none, "", true,
            false, none, some 1⟩,
           ⟨3, 5, "Старое", "vet", ⟨2027, 3, 15⟩, none, none, "", true,
            false, none, some 1⟩]
          ⟨"Новое", "vet", ⟨2025, 3, 15⟩, none, none, "", true⟩ false =
        some (st1,
          [editFields ⟨1, 5, "Старое", "vet", ⟨2025, 3, 15⟩, none, none, "",
             true, false, none, none⟩
             ⟨"Новое", "vet", ⟨2025, 3, 15⟩, none, none, "", true⟩
             ⟨2025, 3, 15⟩,
           editFields ⟨2, 5, "Старое", "vet", ⟨2026, 3, 15⟩, none, none, "",
             true, false, none, some 1⟩
             ⟨"Новое", "vet", ⟨2025, 3, 15⟩, none, none, "", true⟩
             ⟨2026, 3, 15⟩,
           editFields ⟨3, 5, "Старое", "vet", ⟨2027, 3, 15⟩, none, none, "",
             true, false, none, some 1⟩
             ⟨"Новое", "vet", ⟨2025, 3, 15⟩, none, none, "", true⟩
             ⟨2027, 3, 15⟩]) ∧
      ((editFields ⟨1, 5, "Старое", "vet", ⟨2025, 3, 15⟩, none, none, "",
          true, false, none, none⟩
          ⟨"Новое", "vet", ⟨2025, 3, 15⟩, none, none, "", true⟩
          ⟨2025, 3, 15⟩).date = ⟨2025, 3, 15⟩ ∧
       (editFields ⟨2, 5, "Старое", "vet", ⟨2026, 3, 15⟩, none, none, "",
          true, false, none, some 1⟩
          ⟨"Новое", "vet", ⟨2025, 3, 15⟩, none, none, "", true⟩
          ⟨2026, 3, 15⟩).date = ⟨2026, 3, 15⟩ ∧
       (editFields ⟨3, 5, "Старое", "vet", ⟨2027, 3, 15⟩, none, none, "",
          true, false, none, some 1⟩
          ⟨"Новое", "vet", ⟨2025, 3, 15⟩, none, none, "", true⟩
          ⟨2027, 3, 15⟩).date = ⟨2027, 3, 15⟩ ∧
       (editFields ⟨1, 5, "Старое", "vet", ⟨2025, 3, 15⟩, none, none, "",
          true, false, none, none⟩
          ⟨"Новое", "vet", ⟨2025, 3, 15⟩, none, none, "", true⟩
          ⟨2025, 3, 15⟩).title = "Новое" ∧
       (editFields ⟨2, 5, "Старое", "vet", ⟨2026, 3, 15⟩, none, none, "",
          true, false, none, some 1⟩
          ⟨"Новое", "vet", ⟨2025, 3, 15⟩, none, none, "", true⟩
          ⟨2026, 3, 15⟩).title = "Новое" ∧
       (editFields ⟨3, 5, "Старое", "vet", ⟨2027, 3, 15⟩, none, none, "",
          true, false, none, some 1⟩
          ⟨"Новое", "vet", ⟨2025, 3, 15⟩, none, none, "", true⟩
          ⟨2027, 3, 15⟩).title = "Новое") ∧
      update_events st1
          [editFields ⟨1, 5, "Старое", "vet", ⟨2025, 3, 15⟩, none, none, "",
             true, false, none, none⟩
             ⟨"Новое", "vet", ⟨2025, 3, 15⟩, none, none, "", true⟩
             ⟨2025, 3, 15⟩,
           editFields ⟨2, 5, "Старое", "vet", ⟨2026, 3, 15⟩, none, none, "",
             true, false, none, some 1⟩
             ⟨"Новое", "vet", ⟨2025, 3, 15⟩, none, none, "", true⟩
             ⟨2026, 3, 15⟩,
           editFields ⟨3, 5, "Старое", "vet", ⟨2027, 3, 15⟩, none, none, "",
             true, false, none, some 1⟩
             ⟨"Новое", "vet", ⟨2025, 3, 15⟩, none, none, "", true⟩
             ⟨2027, 3, 15⟩]
          ⟨"Новое", "vet", ⟨2025, 3, 15⟩, none, none, "", true⟩ false =
        some (st1,
          [editFields ⟨1, 5, "Старое", "vet", ⟨2025, 3, 15⟩, none, none, "",
             true, false, none, none⟩
             ⟨"Новое", "vet", ⟨2025, 3, 15⟩, none, none, "", true⟩
             ⟨2025, 3, 15⟩,
           editFields ⟨2, 5, "Старое", "vet", ⟨2026, 3, 15⟩, none, none, "",
             true, false, none, some 1⟩
             ⟨"Новое", "vet", ⟨2025, 3, 15⟩, none, none, "", true⟩
             ⟨2026, 3, 15⟩,
           editFields ⟨3, 5, "Старое", "vet", ⟨2027, 3, 15⟩, none, none, "",
             true, false, none, some 1⟩
             ⟨"Новое", "vet", ⟨2025, 3, 15⟩, none, none, "", true⟩
             ⟨2027, 3, 15⟩]) :=
  C8_update_events_title_idempotent
    ⟨[⟨1, 5, "Старое", "vet", ⟨2025, 3, 15⟩, none, none, "", true, false,
       none, none⟩,
      ⟨2, 5, "Старое", "vet", ⟨2026, 3, 15⟩, none, none, "", true, false,
       none, some 1⟩,
      ⟨3, 5, "Старое", "vet", ⟨2027, 3, 15⟩, none, none, "", true, false,
       none, some 1⟩], 4, []⟩
    ⟨1, 5, "Старое", "vet", ⟨2025, 3, 15⟩, none, none, "", true, false, none,
      none⟩
    ⟨2, 5, "Старое", "vet", ⟨2026, 3, 15⟩, none, none, "", true, false, none,
      some 1⟩
    ⟨3, 5, "Старое", "vet", ⟨2027, 3, 15⟩, none, none, "", true, false, none,
      some 1⟩
    ⟨"Новое", "vet", ⟨2025, 3, 15⟩, none, none, "", true⟩
    (by decide) (by decide) (by decide) (by decide) (by decide) (by decide)
    (by decide) (by decide) (by decide)

lemma check_duplicate_append_single_ne (evs : List Event) (p : Nat)
    (t : String) (d : Date) (ev : Event)
    (h : check_duplicate evs p t d none = false) (hne : ev.date ≠ d) :
    check_duplicate (evs ++ [ev]) p t d none = false := by
  unfold check_duplicate at h ⊢
  rw [List.any_append, h]
  simp [hne]

lemma check_duplicate_append_single_true (evs : List Event) (p : Nat)
    (t : String) (d : Date) (ev : Event)
    (h : check_duplicate evs p t d none = true) :
    check_duplicate (evs ++ [ev]) p t d none = true := by
  unfold check_duplicate at h ⊢
  rw [List.any_append, h]
  rfl

lemma cys_go_head_some (pet : Nat) (fd : EventFormData) :
    ∀ (years : List Int) (st : St) (h0 : Event) (pending : List Date)
      (out : St × Option Event × List Date),
      cys_go pet fd st (some h0) pending years = some out →
      out.2.1 = some h0 := by
  intro years
  induction years with
  | nil =>
    intro st h0 pending out h
    injection h with h
    rw [← h]
  | cons y rest ih =>
    intro st h0 pending out h
    unfold cys_go at h
    cases hsd : get_safe_date y fd.date.month fd.date.day with
    | none => rw [hsd] at h; cases h
    | some sd =>
      rw [hsd] at h
      dsimp only at h
      by_cases hdup : check_duplicate st.events pet fd.title sd none = true
      · rw [if_pos hdup] at h
        exact ih _ _ _ _ h
      · rw [if_neg hdup] at h
        exact ih _ _ _ _ h

lemma cys_go_none_head (pet : Nat) (fd : EventFormData) :
    ∀ (years : List Int) (st : St) (pending : List Date) (st1 : St)
      (pending1 : List Date),
      cys_go pet fd st none pending years = some (st1, none, pending1) →
      st1 = st ∧ pending1 = pending := by
  intro years
  induction years with
  | nil =>
    intro st pending st1 pending1 h
    injection h with h
    injection h with h1 h2
    injection h2 with h2a h2b
    exact ⟨h1.symm, h2b.symm⟩
  | cons y rest ih =>
    intro st pending st1 pending1 h
    unfold cys_go at h
    cases hsd : get_safe_date y fd.date.month fd.date.day with
    | none => rw [hsd] at h; cases h
    | some sd =>
      rw [hsd] at h
      dsimp only at h
      by_cases hdup : check_duplicate st.events pet fd.title sd none = true
      · rw [if_pos hdup] at h
        exact ih _ _ _ _ h
      · rw [if_neg hdup] at h
        have := cys_go_head_some pet fd rest _ _ _ _ h
        rw [show ((st1, (none : Option Event), pending1) : St × Option Event × List Date).2.1 = none from rfl] at this
        cases this

lemma create_yearly_series_none_head (st : St) (pet : Nat)
    (fd : EventFormData) (years : List Int) (st1 : St) (created : List Event)
    (h : create_yearly_series st pet fd years = some (st1, none, created)) :
    st1 = st := by
  unfold create_yearly_series at h
  cases hg : cys_go pet fd st none [] years with
  | none => rw [hg] at h; cases h
  | some trip =>
    rw [hg] at h
    obtain ⟨st1', hd, pending⟩ := trip
    cases hd with
    | none =>
      dsimp only at h
      injection h with h
      injection h with h1 _
      rw [← h1]
      exact (cys_go_none_head pet fd years st [] st1' pending hg).1
    | some h0 =>
      dsimp only at h
      injection h with h
      injection h with _ h2
      injection h2 with h2a _
      cases h2a

/-- C3 amended: at the `create_yearly_series` level a pre-existing
(title, date) duplicate of any single target year — including the first — is
skipped, the remaining years produce the series and the head is drawn from
the first non-duplicate year; but the full creation pipeline
(`_create_yearly_event_v2`) pre-checks the first target year and aborts with
a duplicate error before creating anything when that year collides; whenever
the pipeline returns an error, the state is unchanged, so zero years were
produced. -/
theorem C3_series_duplicate_amended (st : St) (pet : Nat)
    (fd : EventFormData) (s : Int) (sd0 sd1 sd2 : Date)
    (hsd0 : get_safe_date s fd.date.month fd.date.day = some sd0)
    (hsd1 : get_safe_date (s + 1) fd.date.month fd.date.day = some sd1)
    (hsd2 : get_safe_date (s + 2) fd.date.month fd.date.day = some sd2) :
    (check_duplicate st.events pet fd.title sd0 none = true →
     check_duplicate st.events pet fd.title sd1 none = false →
     check_duplicate st.events pet fd.title sd2 none = false →
     create_yearly_series st pet fd [s, s + 1, s + 2] =
       some (⟨st.events ++ [seriesEvent pet fd sd1 none st.nextId] ++
                [seriesEvent pet fd sd2 (some st.nextId) (st.nextId + 1)],
              st.nextId + 1 + 1, st.reminders⟩,
             some (seriesEvent pet fd sd1 none st.nextId),
             [seriesEvent pet fd sd2 (some st.nextId) (st.nextId + 1)])) ∧
    (check_duplicate st.events pet fd.title sd0 none = false →
     check_duplicate st.events pet fd.title sd1 none = true →
     check_duplicate st.events pet fd.title sd2 none = false →
     create_yearly_series st pet fd [s, s + 1, s + 2] =
       some (⟨st.events ++ [seriesEvent pet fd sd0 none st.nextId] ++
                [seriesEvent pet fd sd2 (some st.nextId) (st.nextId + 1)],
              st.nextId + 1 + 1, st.reminders⟩,
             some (seriesEvent pet fd sd0 none st.nextId),
             [seriesEvent pet fd sd2 (some st.nextId) (st.nextId + 1)])) ∧
    (check_duplicate st.events pet fd.title sd0 none = false →
     check_duplicate st.events pet fd.title sd1 none = false →
     check_duplicate st.events pet fd.title sd2 none = true →
     create_yearly_series st pet fd [s, s + 1, s + 2] =
       some (⟨st.events ++ [seriesEvent pet fd sd0 none st.nextId] ++
                [seriesEvent pet fd sd1 (some st.nextId) (st.nextId + 1)],
              st.nextId + 1 + 1, st.reminders⟩,
             some (seriesEvent pet fd sd0 none st.nextId),
             [seriesEvent pet fd sd1 (some st.nextId) (st.nextId + 1)])) ∧
    (∀ (cy : Int) (rd : ReminderFormData) (st' : St) (msg : String),
      create_yearly_event_v2 cy st pet fd rd = some (st', Sum.inl msg) →
      st' = st) := by
  have hy0 := get_safe_date_year hsd0
  have hy1 := get_safe_date_year hsd1
  have hy2 := get_safe_date_year hsd2
  have hne01 : sd0 ≠ sd1 := by
    intro hh
    rw [hh] at hy0
    omega
  have hne02 : sd0 ≠ sd2 := by
    intro hh
    rw [hh] at hy0
    omega
  have hne12 : sd1 ≠ sd2 := by
    intro hh
    rw [hh] at hy1
    omega
  refine ⟨?_, ?_, ?_, ?_⟩
  · intro hdup0 hdup1 hdup2
    have hl2 : check_duplicate
        (st.events ++ [seriesEvent pet fd sd1 none st.nextId]) pet fd.title
        sd2 none = false :=
      check_duplicate_append_single_ne _ _ _ _ _ hdup2 hne12
    simp only [create_yearly_series, cys_go, hsd0, hsd1, hsd2, hdup0, hdup1,
      hl2, if_true, Bool.false_eq_true, if_false, List.nil_append,
      bulkCreate]
    rfl
  · intro hdup0 hdup1 hdup2
    have hl1 : check_duplicate
        (st.events ++ [seriesEvent pet fd sd0 none st.nextId]) pet fd.title
        sd1 none = true :=
      check_duplicate_append_single_true _ _ _ _ _ hdup1
    have hl2 : check_duplicate
        (st.events ++ [seriesEvent pet fd sd0 none st.nextId]) pet fd.title
        sd2 none = false :=
      check_duplicate_append_single_ne _ _ _ _ _ hdup2 hne02
    simp only [create_yearly_series, cys_go, hsd0, hsd1, hsd2, hdup0, hl1,
      hl2, if_true, Bool.false_eq_true, if_false, List.nil_append,
      bulkCreate]
    rfl
  · intro hdup0 hdup1 hdup2
    have hl1 : check_duplicate
        (st.events ++ [seriesEvent pet fd sd0 none st.nextId]) pet fd.title
        sd1 none = false :=
      check_duplicate_append_single_ne _ _ _ _ _ hdup1 hne01
    have hl2 : check_duplicate
        (st.events ++ [seriesEvent pet fd sd0 none st.nextId]) pet fd.title
        sd2 none = true :=
      check_duplicate_append_single_true _ _ _ _ _ hdup2
    simp only [create_yearly_series, cys_go, hsd0, hsd1, hsd2, hdup0, hl1,
      hl2, if_true, Bool.false_eq_true, if_false, List.nil_append,
      bulkCreate]
    rfl
  · intro cy rd st' msg hB
    unfold create_yearly_event_v2 at hB
    dsimp only at hB
    cases hgs : get_safe_date (calculate_yearly_start_year cy fd.date).1
        fd.date.month fd.date.day with
    | none => rw [hgs] at hB; cases hB
    | some sdate =>
      rw [hgs] at hB
      dsimp only at hB
      by_cases hpre : check_duplicate st.events pet fd.title sdate none = true
      · rw [if_pos hpre] at hB
        injection hB with hB
        injection hB with h1 _
        exact h1.symm
      · rw [if_neg hpre] at hB
        cases hcys : create_yearly_series st pet fd
            [(calculate_yearly_start_year cy fd.date).1,
             (calculate_yearly_start_year cy fd.date).1 + 1,
             (calculate_yearly_start_year cy fd.date).1 + 2] with
        | none => rw [hcys] at hB; cases hB
        | some trip =>
          rw [hcys] at hB
          obtain ⟨st1, hd, created⟩ := trip
          cases hd with
          | none =>
            dsimp only at hB
            injection hB with hB
            injection hB with h1 _
            rw [← h1]
            exact create_yearly_series_none_head st pet fd _ st1 created hcys
          | some h0 =>
            dsimp only at hB
            cases hsave : save_reminders_for_events st1 (h0 :: created) rd with
            | none => rw [hsave] at hB; cases hB
            | some pr =>
              rw [hsave] at hB
              obtain ⟨st2, rs⟩ := pr
              dsimp only at hB
              injection hB with hB
              injection hB with _ h2
              cases h2

/-- C3 as stated is false at the pipeline level: a pre-existing duplicate at
the first target year (here 2025, with current year 2026) makes
`_create_yearly_event_v2` return the duplicate error and create nothing,
although the remaining target years 2026 and 2027 are free and per the claim
should still have produced a series. -/
theorem C3_series_duplicate_counterexample :
    create_yearly_event_v2 2026
        ⟨[⟨1, 1, "Прививка", "vet", ⟨2025, 3, 15⟩, none, none, "", true,
           false, none, none⟩], 2, []⟩
        1 ⟨"Прививка", "vet", ⟨2025, 3, 15⟩, none, none, "", true⟩
        ⟨none, none, false, [], 1⟩ =
      some (⟨[⟨1, 1, "Прививка", "vet", ⟨2025, 3, 15⟩, none, none, "", true,
               false, none, none⟩], 2, []⟩,
            Sum.inl (dupMsg ⟨2025, 3, 15⟩)) ∧
    check_duplicate
      [⟨1, 1, "Прививка", "vet", ⟨2025, 3, 15⟩, none, none, "", true, false,
        none, none⟩] 1 "Прививка" ⟨2026, 3, 15⟩ none = false ∧
    check_duplicate
      [⟨1, 1, "Прививка", "vet", ⟨2025, 3, 15⟩, none, none, "", true, false,
        none, none⟩] 1 "Прививка" ⟨2027, 3, 15⟩ none = false := by
  refine ⟨rfl, rfl, rfl⟩

/-- Witness for the amended C3 with the duplicate at the first target year:
the series level skips 2025 and builds the series with its head drawn from
2026 and a continuation in 2027. -/
theorem C3_series_duplicate_amended_witness :
    create_yearly_series
        ⟨[⟨1, 1, "Прививка", "vet", ⟨2025, 3, 15⟩, none, none, "", true,
           false, none, none⟩], 2, []⟩
        1 ⟨"Прививка", "vet", ⟨2025, 3, 15⟩, none, none, "", true⟩
        [2025, 2025 + 1, 2025 + 2] =
      some (⟨[⟨1, 1, "Прививка", "vet", ⟨2025, 3, 15⟩, none, none, "", true,
               false, none, none⟩] ++
              [seriesEvent 1 ⟨"Прививка", "vet", ⟨2025, 3, 15⟩, none, none,
                 "", true⟩ ⟨2026, 3, 15⟩ none 2] ++
              [seriesEvent 1 ⟨"Прививка", "vet", ⟨2025, 3, 15⟩, none, none,
                 "", true⟩ ⟨2027, 3, 15⟩ (some 2) (2 + 1)],
             2 + 1 + 1, []⟩,
            some (seriesEvent 1 ⟨"Прививка", "vet", ⟨2025, 3, 15⟩, none,
              none, "", true⟩ ⟨2026, 3, 15⟩ none 2),
            [seriesEvent 1 ⟨"Прививка", "vet", ⟨2025, 3, 15⟩, none, none,
              "", true⟩ ⟨2027, 3, 15⟩ (some 2) (2 + 1)]) :=
  (C3_series_duplicate_amended
      ⟨[⟨1, 1, "Прививка", "vet", ⟨2025, 3, 15⟩, none, none, "", true, false,
         none, none⟩], 2, []⟩
      1 ⟨"Прививка", "vet", ⟨2025, 3, 15⟩, none, none, "", true⟩ 2025
      ⟨2025, 3, 15⟩ ⟨2026, 3, 15⟩ ⟨2027, 3, 15⟩
      (by decide) (by decide) (by decide)).1 (by decide) (by decide)
    (by decide)
